import Mathlib

/-! Fusion MPT boot support (src/hw/mpt-scsi.c)

A shallow embedding of the command issuer `mpt_scsi_cmd`: the request frame it
builds, the register accesses it performs and its polling / retry loop.

Machine integers are natural numbers, reduced explicitly where the C code
converts (`u8`, `u32`, the 24-bit bit-field).  Port reads are answered by a
read stream per port: the k-th `inl` of a port returns the k-th value of that
port's stream.  The `for (;;)` loop is a step function on an explicit state
with a program counter for the labels of the loop; `run` iterates it.
-/

namespace MptScsi

/-! ## Constants (lines 27-43, 56-57, 123) -/

def MPT_REG_DOORBELL : Nat := 0x00
def MPT_REG_ISTATUS : Nat := 0x30
def MPT_REG_IMASK : Nat := 0x34
def MPT_REG_REQ_Q : Nat := 0x40
def MPT_REG_REP_Q : Nat := 0x44

def MPT_IMASK_DOORBELL : Nat := 0x01
def MPT_IMASK_REPLY : Nat := 0x08

def MPT_MESSAGE_HDR_FUNCTION_SCSI_IO_REQUEST : Nat := 0x00

def MPT_CONTEXT_MAGIC : Nat := 0xaaaa5555

/-! ## Integer conversions -/

/-- Conversion to `u8`. -/
def u8 (x : Nat) : Nat := x % 2 ^ 8

/-- Conversion to `u32`. -/
def u32 (x : Nat) : Nat := x % 2 ^ 32

/-- Conversion to an unsigned 24-bit bit-field (`unsigned u24Length:24`). -/
def u24 (x : Nat) : Nat := x % 2 ^ 24

/-- Shift `resp << 1` on a `u32`. -/
def shl1 (resp : Nat) : Nat := u32 (resp <<< 1)

/-! ## Data model -/

/-- Modelled from the spec: the disk-operation status codes of std/disk.h
(success / not-ready / bad-track), a header that is not among the sources; the
three codes are kept as distinct symbolic constants. -/
inductive DiskRet where
  | DISK_RET_SUCCESS
  | DISK_RET_EBADTRACK
  | DISK_RET_ENOTREADY
  deriving DecidableEq

/-- Modelled from the spec: the block-layer request descriptor of block.h
(not among the sources), of which this file reads the transfer buffer address
`buf_fl` and the 16-bit block count `count`. -/
structure disk_op_s where
  buf_fl : Nat
  count : Nat
  deriving DecidableEq

/-- The fields of `struct mpt_lun_s` (lines 45-51) read by the command path. -/
structure mpt_lun_s where
  iobase : Nat
  target : Nat
  lun : Nat
  deriving DecidableEq

/-- The request frame `MptSCSIIORequest_t` (lines 106-121). -/
structure MptSCSIIORequest_t where
  TargetID : Nat
  Bus : Nat
  ChainOffset : Nat
  Function : Nat
  CDBLength : Nat
  SenseBufferLength : Nat
  Reserved : Nat
  MessageFlags : Nat
  MessageContext : Nat
  LUN : List Nat
  Control : Nat
  CDB : List Nat
  DataLength : Nat
  SenseBufferLowAddr : Nat
  deriving DecidableEq

/-- The scatter-gather entry `MptSGEntrySimple32_t` (lines 125-135). -/
structure MptSGEntrySimple32_t where
  u24Length : Nat
  fEndOfList : Nat
  f64BitAddress : Nat
  fBufferContainsData : Nat
  fLocalAddress : Nat
  u2ElementType : Nat
  fEndOfBuffer : Nat
  fLastElement : Nat
  DataBufferAddressLow : Nat
  deriving DecidableEq

/-- The local `struct scsi_req` of `mpt_scsi_cmd` (lines 148-151). -/
structure scsi_req where
  scsi_io : MptSCSIIORequest_t
  sge : MptSGEntrySimple32_t
  deriving DecidableEq

/-- One access to an I/O port: `outl(value, port)` or `inl(port)` together with
the value it returned. -/
inductive Access where
  | outl (value port : Nat)
  | inl (port value : Nat)
  deriving DecidableEq

/-- What surrounds one call of `mpt_scsi_cmd`: the address of the static
`reply_msg`, the flat addresses of the locals `req` and `sense_buf`, and the
values the ports return (`inl_val port k` answers the k-th read of `port`). -/
structure Env where
  reply_msg : Nat
  req_fl : Nat
  sense_fl : Nat
  inl_val : Nat → Nat → Nat

/-- Control points of `mpt_scsi_cmd` from the label `try_again` on
(lines 201-223): the submission, the read of interrupt status at the top of
`for (;;)`, the body of the `do ... while`, the `usleep(50)`, and a return. -/
inductive Pc where
  | try_again
  | poll
  | drain
  | sleep
  | ret (code : DiskRet)
  deriving DecidableEq

/-- Program state: control point, the local `retry`, the local `req`, the log
of port accesses so far, and the microseconds spent in `usleep`. -/
structure State where
  pc : Pc
  retry : Nat
  req : scsi_req
  log : List Access
  slept : Nat
  deriving DecidableEq

/-! ## Port access -/

/-- Values returned so far by the reads of `port`, oldest first. -/
def reads_of (port : Nat) (log : List Access) : List Nat :=
  log.filterMap fun a =>
    match a with
    | Access.inl p v => if p = port then some v else none
    | Access.outl _ _ => none

/-- Values written so far to `port`, oldest first. -/
def writes_to (port : Nat) (log : List Access) : List Nat :=
  log.filterMap fun a =>
    match a with
    | Access.outl v p => if p = port then some v else none
    | Access.inl _ _ => none

/-- The call `outl(value, port)`. -/
def outl (value port : Nat) (s : State) : State :=
  { s with log := s.log ++ [Access.outl (u32 value) port] }

/-- The call `inl(port)`: the next value of the port's stream, as a `u32`. -/
def inl (E : Env) (port : Nat) (s : State) : Nat × State :=
  let v := u32 (E.inl_val port (reads_of port s.log).length)
  (v, { s with log := s.log ++ [Access.inl port v] })

/-- The call `usleep(n)`. -/
def usleep (n : Nat) (s : State) : State :=
  { s with slept := s.slept + n }

/-! ## Building the request (lines 148-197) -/

/-- The initialiser of `req` (lines 151-179).  `op->count * blocksize` is
computed in `int`; stored in the `u32` field it is reduced modulo 2^32 and in
the 24-bit bit-field modulo 2^24. -/
def req_init (E : Env) (op : disk_op_s) (target lun blocksize : Nat) : scsi_req :=
  { scsi_io :=
      { TargetID := u8 target
        Bus := 0
        ChainOffset := 0
        Function := MPT_MESSAGE_HDR_FUNCTION_SCSI_IO_REQUEST
        CDBLength := 16
        SenseBufferLength := 32
        Reserved := 0
        MessageFlags := 0
        MessageContext := MPT_CONTEXT_MAGIC
        LUN := [0, u8 lun, 0, 0, 0, 0, 0, 0]
        Control := 0
        CDB := [0, 0, 0, 0, 0, 0, 0, 0, 0, 0, 0, 0, 0, 0, 0, 0]
        DataLength := u32 (op.count * blocksize)
        SenseBufferLowAddr := u32 E.sense_fl }
    sge :=
      { u24Length := u24 (op.count * blocksize)
        fEndOfList := 1
        f64BitAddress := 0
        fBufferContainsData := 0
        fLocalAddress := 0
        u2ElementType := 1
        fEndOfBuffer := 1
        fLastElement := 1
        DataBufferAddressLow := u32 op.buf_fl } }

/-- The direction of the transfer (lines 185-192).  `cdb_is_read` belongs to
blockcmd.c, which is not among the sources, and is a parameter. -/
def set_control (cdb_is_read : (Nat → Nat) → Nat → Bool) (cdbcmd : Nat → Nat)
    (blocksize : Nat) (req : scsi_req) : scsi_req :=
  if blocksize = 0 then
    { req with scsi_io := { req.scsi_io with Control := 0 } }
  else if cdb_is_read cdbcmd blocksize then
    { req with scsi_io := { req.scsi_io with Control := 2 <<< 24 } }
  else
    { scsi_io := { req.scsi_io with Control := 1 <<< 24 }
      sge := { req.sge with fBufferContainsData := 1 } }

/-- The copy loop `for (i = 0; i < 16; i++) req.scsi_io.CDB[i] = cdb[i];`
(lines 194-197); `cdbcmd i` is the byte at offset `i` of the command block. -/
def copy_cdb (cdbcmd : Nat → Nat) (req : scsi_req) : scsi_req :=
  (List.range 16).foldl
    (fun r i => { r with scsi_io := { r.scsi_io with CDB := r.scsi_io.CDB.set i (u8 (cdbcmd i)) } })
    req

/-! ## The polling loop (lines 201-223) -/

/-- How the body of the `do ... while` treats a value read from the reply
queue (lines 210-219): the tests in the order of the code. -/
inductive ReplyClass where
  | completion
  | aliased
  | drained
  | skipped
  deriving DecidableEq

/-- The tests of lines 210, 212 and 219 on `resp`, in that order. -/
def reply_class (reply_msg resp : Nat) : ReplyClass :=
  if resp = MPT_CONTEXT_MAGIC then ReplyClass.completion
  else if shl1 resp = u32 reply_msg ∨ shl1 resp = 0 then ReplyClass.aliased
  else if resp ≠ 0xffffffff then ReplyClass.skipped
  else ReplyClass.drained

/-- One step of `mpt_scsi_cmd` from the label `try_again` on. -/
def step (E : Env) (iobase : Nat) (s : State) : State :=
  match s.pc with
  | Pc.try_again =>
      { outl E.req_fl (u32 (iobase + MPT_REG_REQ_Q)) s with pc := Pc.poll }
  | Pc.poll =>
      let r := inl E (u32 (iobase + MPT_REG_ISTATUS)) s
      if r.1 &&& MPT_IMASK_REPLY ≠ 0 then { r.2 with pc := Pc.drain }
      else { r.2 with pc := Pc.sleep }
  | Pc.drain =>
      let r := inl E (u32 (iobase + MPT_REG_REP_Q)) s
      match reply_class E.reply_msg r.1 with
      | ReplyClass.completion => { r.2 with pc := Pc.ret DiskRet.DISK_RET_SUCCESS }
      | ReplyClass.aliased =>
          if r.2.retry = 0 then { r.2 with retry := 1, pc := Pc.try_again }
          else { r.2 with pc := Pc.ret DiskRet.DISK_RET_EBADTRACK }
      | ReplyClass.skipped => { r.2 with pc := Pc.drain }
      | ReplyClass.drained => { r.2 with pc := Pc.sleep }
  | Pc.sleep => { usleep 50 s with pc := Pc.poll }
  | Pc.ret _ => s

/-- Run `fuel` steps. -/
def run (E : Env) (iobase : Nat) : Nat → State → State
  | 0, s => s
  | fuel + 1, s => run E iobase fuel (step E iobase s)

/-- The part of `mpt_scsi_cmd` before the label `try_again` (lines 143-199):
the request is built, a LUN other than 0 returns at once. -/
def mpt_scsi_cmd_entry (E : Env) (cdb_is_read : (Nat → Nat) → Nat → Bool)
    (op : disk_op_s) (cdbcmd : Nat → Nat) (target lun blocksize : Nat) : State :=
  let req := req_init E op target lun blocksize
  if lun ≠ 0 then
    { pc := Pc.ret DiskRet.DISK_RET_ENOTREADY, retry := 0, req := req, log := [], slept := 0 }
  else
    { pc := Pc.try_again, retry := 0
      req := copy_cdb cdbcmd (set_control cdb_is_read cdbcmd blocksize req)
      log := [], slept := 0 }

/-- The function `mpt_scsi_cmd`, run for `fuel` steps of its loop. -/
def mpt_scsi_cmd (E : Env) (cdb_is_read : (Nat → Nat) → Nat → Bool) (fuel : Nat)
    (llun : mpt_lun_s) (op : disk_op_s) (cdbcmd : Nat → Nat)
    (target lun blocksize : Nat) : State :=
  run E llun.iobase fuel (mpt_scsi_cmd_entry E cdb_is_read op cdbcmd target lun blocksize)

/-- The value returned, once the function has returned. -/
def State.result (s : State) : Option DiskRet :=
  match s.pc with
  | Pc.ret code => some code
  | _ => none

/-- The value that the next read of interrupt status returns in state `s`. -/
def next_istatus (E : Env) (iobase : Nat) (s : State) : Nat :=
  (inl E (u32 (iobase + MPT_REG_ISTATUS)) s).1

/-- The value that the next read of the reply queue returns in state `s`. -/
def next_reply (E : Env) (iobase : Nat) (s : State) : Nat :=
  (inl E (u32 (iobase + MPT_REG_REP_Q)) s).1

/-- The k-th value of the interrupt-status stream of the controller at `iobase`. -/
def istatus_at (E : Env) (iobase k : Nat) : Nat :=
  u32 (E.inl_val (u32 (iobase + MPT_REG_ISTATUS)) k)

/-- The k-th value of the reply-queue stream of the controller at `iobase`. -/
def reply_at (E : Env) (iobase k : Nat) : Nat :=
  u32 (E.inl_val (u32 (iobase + MPT_REG_REP_Q)) k)

/-- The test of line 212 on a reply value, as a Boolean. -/
def is_aliased (reply_msg resp : Nat) : Bool :=
  decide (shl1 resp = u32 reply_msg ∨ shl1 resp = 0)

/-- Number of aliased replies among the values read from the reply queue. -/
def aliased_count (reply_msg : Nat) (replies : List Nat) : Nat :=
  replies.countP (is_aliased reply_msg)

/-- The invariant of the loop of `mpt_scsi_cmd` for a command at LUN 0: `retry`
is 0 or 1; the request queue has received the request address once per
submission (`retry` resubmissions after the first, the pending one at
`try_again` not counted); the aliased replies read are `retry`, plus the one
that ends the command with the bad-track error; after a success the last reply
read is the context magic; the command does not end with not-ready. -/
def loop_inv (E : Env) (iobase : Nat) (s : State) : Prop :=
  s.retry ≤ 1 ∧
  writes_to (u32 (iobase + MPT_REG_REQ_Q)) s.log
    = List.replicate (if s.pc = Pc.try_again then s.retry else s.retry + 1) (u32 E.req_fl) ∧
  aliased_count E.reply_msg (reads_of (u32 (iobase + MPT_REG_REP_Q)) s.log)
    = (if s.pc = Pc.ret DiskRet.DISK_RET_EBADTRACK then s.retry + 1 else s.retry) ∧
  (s.pc = Pc.ret DiskRet.DISK_RET_EBADTRACK → s.retry = 1) ∧
  (s.pc = Pc.ret DiskRet.DISK_RET_SUCCESS →
    (reads_of (u32 (iobase + MPT_REG_REP_Q)) s.log).getLast? = some MPT_CONTEXT_MAGIC) ∧
  s.pc ≠ Pc.ret DiskRet.DISK_RET_ENOTREADY

/-- Port streams of a controller at 0x1000: interrupt status shows a reply at
its reads 1 and 3 only; the reply queue returns `r0` first and `r1` from then
on. -/
def two_reply_stream (r0 r1 : Nat) : Nat → Nat → Nat := fun port k =>
  if port = 0x1030 then (if k = 1 ∨ k = 3 then MPT_IMASK_REPLY else 0)
  else if port = 0x1044 then (if k = 0 then r0 else r1)
  else 0

/-! ## Concrete instances -/

/-- An environment with `reply_msg` at 0xf6a40 and the given port streams. -/
def env_ex (vals : Nat → Nat → Nat) : Env :=
  { reply_msg := 0xf6a40, req_fl := 0x6f80, sense_fl := 0x6f60, inl_val := vals }

/-- A controller at I/O base 0x1000, target 2, LUN 0. -/
def llun_ex : mpt_lun_s := { iobase := 0x1000, target := 2, lun := 0 }

/-- A READ(10) command block: operation code 0x28, four blocks at LBA 0. -/
def cdb_read10 (i : Nat) : Nat := if i = 0 then 0x28 else if i = 8 then 4 else 0

/-- A WRITE(10) command block: operation code 0x2a, four blocks at LBA 0. -/
def cdb_write10 (i : Nat) : Nat := if i = 0 then 0x2a else if i = 8 then 4 else 0

/-- An instance of the parameter `cdb_is_read`: a data command is a read unless
its operation code is WRITE(10). -/
def cdb_is_read_ex (cdbcmd : Nat → Nat) (blocksize : Nat) : Bool :=
  blocksize != 0 && cdbcmd 0 != 0x2a

/-- A transfer of four blocks into the buffer at 0x7c00. -/
def op_ex : disk_op_s := { buf_fl := 0x7c00, count := 4 }

/-- Port streams on which every read returns `v`. -/
def const_stream (v : Nat) : Nat → Nat → Nat := fun _ _ => v

/-- A state in the body of the `do ... while` with the given `retry`, after one
submission and one read of interrupt status. -/
def drain_state_ex (E : Env) (retry : Nat) : State :=
  { pc := Pc.drain, retry := retry, req := req_init E op_ex 2 0 512
    log := [Access.outl 0x6f80 0x1040, Access.inl 0x1030 8], slept := 0 }

/-! ## Controller bring-up (lines 38-40, 53-103, 240-323) -/

def MPT_DOORBELL_MSG_RESET : Nat := 0x40
def MPT_DOORBELL_HANDSHAKE : Nat := 0x42

/-- The macro `MPT_DOORBELL_REG_FUNC(f, s)` (line 40). -/
def MPT_DOORBELL_REG_FUNC (f s : Nat) : Nat :=
  ((f &&& 0xff) <<< 24) ||| ((s &&& 0xff) <<< 16)

def MPT_MESSAGE_HDR_FUNCTION_IOC_INIT : Nat := 0x02

/-- The value of `sizeof(reply_msg)` for `u8 reply_msg[128]` (line 53). -/
def sizeof_reply_msg : Nat := 128

/-- The type of the static `MptIOCInitRequest` (lines 59-74). -/
structure MptIOCInitRequest_t where
  WhoInit : Nat
  Reserved1 : Nat
  ChainOffset : Nat
  Function : Nat
  Flags : Nat
  MaxDevices : Nat
  MaxBuses : Nat
  MessageFlags : Nat
  MessageContext : Nat
  ReplyFrameSize : Nat
  Reserved2 : Nat
  HostMfaHighAddr : Nat
  SenseBufferHighAddr : Nat
  deriving DecidableEq

/-- The static `MptIOCInitRequest` with its thirteen initialisers, in order
(lines 74-88). -/
def MptIOCInitRequest : MptIOCInitRequest_t :=
  { WhoInit := 2
    Reserved1 := 0
    ChainOffset := 0
    Function := MPT_MESSAGE_HDR_FUNCTION_IOC_INIT
    Flags := 0
    MaxDevices := 8
    MaxBuses := 1
    MessageFlags := 0
    MessageContext := 0
    ReplyFrameSize := sizeof_reply_msg
    Reserved2 := 0
    HostMfaHighAddr := 0
    SenseBufferHighAddr := 0 }

/-- The two bytes of a `u16` in memory, low byte first. -/
def le16 (x : Nat) : List Nat := [x % 256, x / 256 % 256]

/-- The four bytes of a `u32` in memory, low byte first. -/
def le32 (x : Nat) : List Nat :=
  [x % 256, x / 256 % 256, x / 65536 % 256, x / 16777216 % 256]

/-- The bytes of an IOC-Init request in memory: eight `u8` fields, a `u32`, two
`u16` and two `u32`, each at an offset that is a multiple of its size, so that
no padding separates them. -/
def MptIOCInitRequest_bytes (r : MptIOCInitRequest_t) : List Nat :=
  [u8 r.WhoInit, u8 r.Reserved1, u8 r.ChainOffset, u8 r.Function, u8 r.Flags,
    u8 r.MaxDevices, u8 r.MaxBuses, u8 r.MessageFlags]
  ++ le32 r.MessageContext ++ le16 r.ReplyFrameSize ++ le16 r.Reserved2
  ++ le32 r.HostMfaHighAddr ++ le32 r.SenseBufferHighAddr

/-- The value of `sizeof(MptIOCInitRequest)`: the sizes of the thirteen fields;
the sum is a multiple of the alignment 8. -/
def sizeof_MptIOCInitRequest : Nat := 8 * 1 + 4 + 2 + 2 + 4 + 4

/-- The value of `sizeof(MptIOCInitReply)` (lines 90-103): eight `u8`, a `u32`,
two `u16` and a `u32`. -/
def sizeof_MptIOCInitReply : Nat := 8 * 1 + 4 + 2 + 2 + 4

/-- The read `msg_out_p[i]` of a `u32` from the bytes `mem`. -/
def read_u32 (mem : List Nat) (i : Nat) : Nat :=
  mem.getD (4 * i) 0 + 256 * mem.getD (4 * i + 1) 0 + 65536 * mem.getD (4 * i + 2) 0
    + 16777216 * mem.getD (4 * i + 3) 0

/-- The call `outl(value, port)` on a log. -/
def outl_log (value port : Nat) (log : List Access) : List Access :=
  log ++ [Access.outl (u32 value) port]

/-- The call `inl(port)` on a log, answered by the port streams `vals`. -/
def inl_log (vals : Nat → Nat → Nat) (port : Nat) (log : List Access) : Nat × List Access :=
  (u32 (vals port (reads_of port log).length),
    log ++ [Access.inl port (u32 (vals port (reads_of port log).length))])

/-- The handshake of `init_mpt_scsi` (lines 293-316): the log of port accesses
and the sixteen-bit words stored into the local `MptIOCInitReply`. -/
def init_mpt_scsi_handshake (vals : Nat → Nat → Nat) (reply_msg iobase : Nat) :
    List Access × List Nat :=
  let log := outl_log (MPT_DOORBELL_REG_FUNC MPT_DOORBELL_MSG_RESET 0)
    (u32 (iobase + MPT_REG_DOORBELL)) []
  let log := outl_log (MPT_IMASK_DOORBELL ||| MPT_IMASK_REPLY) (u32 (iobase + MPT_REG_IMASK)) log
  let log := outl_log 0 (u32 (iobase + MPT_REG_ISTATUS)) log
  let log := outl_log (MPT_DOORBELL_REG_FUNC MPT_DOORBELL_HANDSHAKE (sizeof_MptIOCInitRequest / 4))
    (u32 (iobase + MPT_REG_DOORBELL)) log
  let log := (List.range (sizeof_MptIOCInitRequest / 4)).foldl
    (fun l i => outl_log (read_u32 (MptIOCInitRequest_bytes MptIOCInitRequest) i)
      (u32 (iobase + MPT_REG_DOORBELL)) l) log
  let r := (List.range (sizeof_MptIOCInitReply / 2)).foldl
    (fun (st : List Access × List Nat) _ =>
      ((inl_log vals (u32 (iobase + MPT_REG_DOORBELL)) st.1).2,
        st.2 ++ [(inl_log vals (u32 (iobase + MPT_REG_DOORBELL)) st.1).1 % 2 ^ 16]))
    (log, [])
  let log := outl_log 0 (u32 (iobase + MPT_REG_ISTATUS)) r.1
  let log := outl_log reply_msg (u32 (iobase + MPT_REG_REP_Q)) log
  (log, r.2)

/-- The words of the static IOC-Init request, in the order of the structure. -/
def MptIOCInitRequest_words : List Nat :=
  (List.range (sizeof_MptIOCInitRequest / 4)).map
    (read_u32 (MptIOCInitRequest_bytes MptIOCInitRequest))

/-- Modelled from the spec: the controller handle's bus/device/function
identifier.  pci.h is not among the sources; the three fields stand for the
results of `pci_bdf_to_bus`, `pci_bdf_to_dev` and `pci_bdf_to_fn` on `pci->bdf`. -/
structure pci_device where
  bus : Nat
  dev : Nat
  fn : Nat
  deriving DecidableEq

/-- The conversion `%x`: hexadecimal digits, lower case. -/
def fmt_x (n : Nat) : List Char := Nat.toDigits 16 n

/-- The conversion `%02x`: as `%x`, padded with zeros on the left to two
characters. -/
def fmt_02x (n : Nat) : List Char :=
  List.replicate (2 - (fmt_x n).length) '0' ++ fmt_x n

/-- The conversion `%d` of a value that is not negative. -/
def fmt_d (n : Nat) : List Char := Nat.toDigits 10 n

/-- The text of the format `"mpt %02x:%02x.%x %d:%d"` (line 256) for the
arguments of `mpt_scsi_add_lun`, before any limit. -/
def mpt_name_text (pci : pci_device) (target lun : Nat) : List Char :=
  ['m', 'p', 't', ' '] ++ fmt_02x pci.bus ++ [':'] ++ fmt_02x pci.dev ++ ['.'] ++ fmt_x pci.fn
    ++ [' '] ++ fmt_d target ++ [':'] ++ fmt_d lun

/-- Modelled from the spec: `znprintf` of output.c, which is not among the
sources; the spec only says that a name is generated.  A buffer of `size`
bytes holds at most `size - 1` characters of the text before the terminating
NUL. -/
def znprintf (size : Nat) (text : List Char) : List Char := text.take (size - 1)

/-- What the external calls of one `mpt_scsi_add_lun` return: whether
`malloc_fseg` gave a record, and the value of `scsi_drive_setup`. -/
structure add_lun_ext where
  malloc_ok : Bool
  setup_ret : Int
  deriving DecidableEq

/-- What one `mpt_scsi_add_lun` leaves behind: its return value, the name
it passed to `scsi_drive_setup` if it got that far, and the record that stays
registered. -/
structure add_lun_result where
  ret : Int
  name : Option (List Char)
  llun : Option mpt_lun_s
  deriving DecidableEq

/-- The function `mpt_scsi_add_lun` (lines 240-270). -/
def mpt_scsi_add_lun (ext : add_lun_ext) (pci : pci_device) (iobase target lun : Nat) :
    add_lun_result :=
  if ext.malloc_ok = false then
    { ret := -1, name := none, llun := none }
  else
    let llun : mpt_lun_s := { iobase := iobase, target := u8 target, lun := u8 lun }
    let name := znprintf 16 (mpt_name_text pci (u8 target) (u8 lun))
    if ext.setup_ret ≠ 0 then
      { ret := -1, name := some name, llun := none }
    else
      { ret := 0, name := some name, llun := some llun }

/-- One call of `mpt_scsi_add_lun`: its arguments and what it left behind. -/
structure add_lun_call where
  iobase : Nat
  target : Nat
  lun : Nat
  result : add_lun_result
  deriving DecidableEq

/-- The function `mpt_scsi_scan_target` (lines 272-277), recording the call of
`mpt_scsi_add_lun` it makes. -/
def mpt_scsi_scan_target (ext : add_lun_ext) (pci : pci_device) (iobase target : Nat)
    (calls : List add_lun_call) : List add_lun_call :=
  calls ++ [{ iobase := iobase, target := u8 target, lun := 0
              result := mpt_scsi_add_lun ext pci iobase (u8 target) 0 }]

/-- The scan loop of `init_mpt_scsi` (lines 318-320); `ext i` holds what the
external calls return during the iteration `i`. -/
def init_mpt_scsi_scan (ext : Nat → add_lun_ext) (pci : pci_device) (iobase : Nat) :
    List add_lun_call :=
  (List.range 7).foldl (fun calls i => mpt_scsi_scan_target (ext i) pci iobase i calls) []

/-- The records that stay registered after a scan. -/
def registered (calls : List add_lun_call) : List mpt_lun_s :=
  calls.filterMap fun c => c.result.llun

/-- The environment `E` with the value `v` inserted at position `k` of the
reply-queue stream of the controller at `iobase`. -/
def insert_reply (E : Env) (iobase k v : Nat) : Env :=
  { E with
    inl_val := fun port i =>
      if port = u32 (iobase + MPT_REG_REP_Q) then
        if i < k then E.inl_val port i
        else if i = k then v
        else E.inl_val port (i - 1)
      else E.inl_val port i }

/-- The state `s'`, run on a reply-queue stream with one value inserted at
position `k`, is the state `s` after one more read of the reply queue: control
point, `retry`, request, writes and interrupt-status reads are the same. -/
def one_more_reply (iobase k : Nat) (s s' : State) : Prop :=
  s'.pc = s.pc ∧ s'.retry = s.retry ∧ s'.req = s.req ∧ s'.slept = s.slept ∧
  (∀ p, writes_to p s'.log = writes_to p s.log) ∧
  reads_of (u32 (iobase + MPT_REG_ISTATUS)) s'.log
    = reads_of (u32 (iobase + MPT_REG_ISTATUS)) s.log ∧
  (reads_of (u32 (iobase + MPT_REG_REP_Q)) s'.log).length
    = (reads_of (u32 (iobase + MPT_REG_REP_Q)) s.log).length + 1 ∧
  k ≤ (reads_of (u32 (iobase + MPT_REG_REP_Q)) s.log).length

/-- A PCI device at 00:03.0. -/
def pci_ex : pci_device := { bus := 0, dev := 3, fn := 0 }

/-- External results: every allocation and every registration succeeds. -/
def ext_all_ok : Nat → add_lun_ext := fun _ => { malloc_ok := true, setup_ret := 0 }

/-- External results: the allocation fails at iteration 2, the registration
fails at iteration 4, all else succeeds. -/
def ext_two_fail : Nat → add_lun_ext := fun i =>
  if i = 2 then { malloc_ok := false, setup_ret := 0 }
  else if i = 4 then { malloc_ok := true, setup_ret := 1 }
  else { malloc_ok := true, setup_ret := 0 }

/-! ## Basic facts about the log and the step function -/

theorem reads_of_append (p : Nat) (l1 l2 : List Access) :
    reads_of p (l1 ++ l2) = reads_of p l1 ++ reads_of p l2 := by
  simp [reads_of]

theorem writes_to_append (p : Nat) (l1 l2 : List Access) :
    writes_to p (l1 ++ l2) = writes_to p l1 ++ writes_to p l2 := by
  simp [writes_to]

theorem reads_of_inl (p q v : Nat) :
    reads_of p [Access.inl q v] = if q = p then [v] else [] := by
  by_cases h : q = p <;> simp [reads_of, h]

theorem reads_of_outl (p q v : Nat) : reads_of p [Access.outl v q] = [] := by
  simp [reads_of]

theorem writes_to_outl (p q v : Nat) :
    writes_to p [Access.outl v q] = if q = p then [v] else [] := by
  by_cases h : q = p <;> simp [writes_to, h]

theorem writes_to_inl (p q v : Nat) : writes_to p [Access.inl q v] = [] := by
  simp [writes_to]

theorem port_istatus_ne_rep_q (iobase : Nat) :
    u32 (iobase + MPT_REG_ISTATUS) ≠ u32 (iobase + MPT_REG_REP_Q) := by
  simp only [u32, MPT_REG_ISTATUS, MPT_REG_REP_Q]; omega

theorem port_rep_q_ne_istatus (iobase : Nat) :
    u32 (iobase + MPT_REG_REP_Q) ≠ u32 (iobase + MPT_REG_ISTATUS) := by
  simp only [u32, MPT_REG_ISTATUS, MPT_REG_REP_Q]; omega

theorem run_add (E : Env) (iobase : Nat) (a b : Nat) (s : State) :
    run E iobase (a + b) s = run E iobase b (run E iobase a s) := by
  induction a generalizing s with
  | zero => simp [run]
  | succ a ih => rw [Nat.succ_add]; simp [run, ih]

theorem run_succ_last (E : Env) (iobase : Nat) (n : Nat) (s : State) :
    run E iobase (n + 1) s = step E iobase (run E iobase n s) := by
  rw [run_add]; rfl

theorem step_ret (E : Env) (iobase : Nat) (s : State) (c : DiskRet) (h : s.pc = Pc.ret c) :
    step E iobase s = s := by
  simp [step, h]

theorem run_ret (E : Env) (iobase : Nat) (n : Nat) (s : State) (c : DiskRet)
    (h : s.pc = Pc.ret c) : run E iobase n s = s := by
  induction n with
  | zero => rfl
  | succ n ih => simp [run, step_ret E iobase s c h, ih]

theorem step_try_again (E : Env) (iobase : Nat) (s : State) (h : s.pc = Pc.try_again) :
    step E iobase s =
      { s with pc := Pc.poll
               log := s.log ++ [Access.outl (u32 E.req_fl) (u32 (iobase + MPT_REG_REQ_Q))] } := by
  simp [step, h, outl]

theorem step_sleep (E : Env) (iobase : Nat) (s : State) (h : s.pc = Pc.sleep) :
    step E iobase s = { s with pc := Pc.poll, slept := s.slept + 50 } := by
  simp [step, h, usleep]

theorem step_poll (E : Env) (iobase : Nat) (s : State) (h : s.pc = Pc.poll) :
    step E iobase s =
      { s with
        pc := if next_istatus E iobase s &&& MPT_IMASK_REPLY ≠ 0 then Pc.drain else Pc.sleep
        log := s.log ++ [Access.inl (u32 (iobase + MPT_REG_ISTATUS)) (next_istatus E iobase s)] } := by
  simp only [step, h, inl, next_istatus]
  split <;> rfl

theorem step_drain_completion (E : Env) (iobase : Nat) (s : State) (h : s.pc = Pc.drain)
    (hc : reply_class E.reply_msg (next_reply E iobase s) = ReplyClass.completion) :
    step E iobase s =
      { s with
        pc := Pc.ret DiskRet.DISK_RET_SUCCESS
        log := s.log ++ [Access.inl (u32 (iobase + MPT_REG_REP_Q)) (next_reply E iobase s)] } := by
  simp only [next_reply, inl] at hc
  simp only [step, h, inl, next_reply, hc]

theorem step_drain_aliased (E : Env) (iobase : Nat) (s : State) (h : s.pc = Pc.drain)
    (hc : reply_class E.reply_msg (next_reply E iobase s) = ReplyClass.aliased) :
    step E iobase s =
      { s with
        pc := if s.retry = 0 then Pc.try_again else Pc.ret DiskRet.DISK_RET_EBADTRACK
        retry := if s.retry = 0 then 1 else s.retry
        log := s.log ++ [Access.inl (u32 (iobase + MPT_REG_REP_Q)) (next_reply E iobase s)] } := by
  simp only [next_reply, inl] at hc
  simp only [step, h, inl, next_reply, hc]
  split <;> rfl

theorem step_drain_skipped (E : Env) (iobase : Nat) (s : State) (h : s.pc = Pc.drain)
    (hc : reply_class E.reply_msg (next_reply E iobase s) = ReplyClass.skipped) :
    step E iobase s =
      { s with
        pc := Pc.drain
        log := s.log ++ [Access.inl (u32 (iobase + MPT_REG_REP_Q)) (next_reply E iobase s)] } := by
  simp only [next_reply, inl] at hc
  simp only [step, h, inl, next_reply, hc]

theorem step_drain_drained (E : Env) (iobase : Nat) (s : State) (h : s.pc = Pc.drain)
    (hc : reply_class E.reply_msg (next_reply E iobase s) = ReplyClass.drained) :
    step E iobase s =
      { s with
        pc := Pc.sleep
        log := s.log ++ [Access.inl (u32 (iobase + MPT_REG_REP_Q)) (next_reply E iobase s)] } := by
  simp only [next_reply, inl] at hc
  simp only [step, h, inl, next_reply, hc]

theorem step_req (E : Env) (iobase : Nat) (s : State) : (step E iobase s).req = s.req := by
  unfold step
  split
  · rfl
  · simp only [inl]; split <;> rfl
  · simp only [inl]
    split
    · rfl
    · split <;> rfl
    · rfl
    · rfl
  · rfl
  · rfl

theorem run_req (E : Env) (iobase : Nat) (n : Nat) (s : State) :
    (run E iobase n s).req = s.req := by
  induction n generalizing s with
  | zero => rfl
  | succ n ih => simp [run, ih, step_req]

theorem copy_cdb_eq (cdbcmd : Nat → Nat) (req : scsi_req) :
    copy_cdb cdbcmd req =
      { req with scsi_io := { req.scsi_io with
          CDB := (List.range 16).foldl (fun l i => l.set i (u8 (cdbcmd i))) req.scsi_io.CDB } } := by
  have hr : List.range 16 = [0, 1, 2, 3, 4, 5, 6, 7, 8, 9, 10, 11, 12, 13, 14, 15] := by decide
  simp only [copy_cdb, hr, List.foldl]

theorem reply_class_aliased_iff (reply_msg resp : Nat) (h : resp ≠ MPT_CONTEXT_MAGIC) :
    reply_class reply_msg resp = ReplyClass.aliased ↔
      (shl1 resp = u32 reply_msg ∨ shl1 resp = 0) := by
  unfold reply_class
  simp only [h, if_false]
  split
  · simp [*]
  · split <;> simp [*]

theorem shl1_magic : shl1 MPT_CONTEXT_MAGIC = 0x5554aaaa := by decide
theorem shl1_ones : shl1 0xffffffff = 0xfffffffe := by decide

theorem shl1_eq (resp : Nat) : shl1 resp = (2 * resp) % 4294967296 := by
  simp only [shl1, u32, Nat.shiftLeft_eq]; omega

theorem reply_class_ones (reply_msg : Nat) (hal : reply_msg % 8 = 0) :
    reply_class reply_msg 0xffffffff = ReplyClass.drained := by
  have h1 : shl1 0xffffffff = 0xfffffffe := by decide
  unfold reply_class
  rw [h1]
  simp only [u32, MPT_CONTEXT_MAGIC]
  have h2 : ¬ (4294967294 = reply_msg % 4294967296) := by omega
  simp [h2]

theorem reply_class_magic (reply_msg : Nat) :
    reply_class reply_msg MPT_CONTEXT_MAGIC = ReplyClass.completion := by
  simp [reply_class]

theorem not_aliased_magic (reply_msg : Nat) (hal : reply_msg % 8 = 0) :
    ¬ (shl1 MPT_CONTEXT_MAGIC = u32 reply_msg ∨ shl1 MPT_CONTEXT_MAGIC = 0) := by
  rw [shl1_magic]; simp only [u32]; omega

theorem not_aliased_ones (reply_msg : Nat) (hal : reply_msg % 8 = 0) :
    ¬ (shl1 0xffffffff = u32 reply_msg ∨ shl1 0xffffffff = 0) := by
  rw [shl1_ones]; simp only [u32]; omega

theorem entry_req (E : Env) (cdb_is_read : (Nat → Nat) → Nat → Bool) (n : Nat)
    (llun : mpt_lun_s) (op : disk_op_s) (cdbcmd : Nat → Nat) (target blocksize : Nat) :
    (mpt_scsi_cmd E cdb_is_read n llun op cdbcmd target 0 blocksize).req =
      copy_cdb cdbcmd (set_control cdb_is_read cdbcmd blocksize (req_init E op target 0 blocksize)) := by
  simp [mpt_scsi_cmd, run_req, mpt_scsi_cmd_entry]

theorem foldl_cdb_zero (cdbcmd : Nat → Nat) :
    List.foldl (fun l i => l.set i (u8 (cdbcmd i)))
        [0, 0, 0, 0, 0, 0, 0, 0, 0, 0, 0, 0, 0, 0, 0, 0] (List.range 16) =
      [u8 (cdbcmd 0), u8 (cdbcmd 1), u8 (cdbcmd 2), u8 (cdbcmd 3), u8 (cdbcmd 4),
        u8 (cdbcmd 5), u8 (cdbcmd 6), u8 (cdbcmd 7), u8 (cdbcmd 8), u8 (cdbcmd 9),
        u8 (cdbcmd 10), u8 (cdbcmd 11), u8 (cdbcmd 12), u8 (cdbcmd 13), u8 (cdbcmd 14),
        u8 (cdbcmd 15)] := by
  have hr : List.range 16 = [0, 1, 2, 3, 4, 5, 6, 7, 8, 9, 10, 11, 12, 13, 14, 15] := by decide
  simp only [hr, List.foldl, List.set]

theorem cdb_bytes_get (cdbcmd : Nat → Nat) (hcdb : ∀ i, i < 16 → cdbcmd i < 2 ^ 8)
    (i : Nat) (hi : i < 16) :
    [u8 (cdbcmd 0), u8 (cdbcmd 1), u8 (cdbcmd 2), u8 (cdbcmd 3), u8 (cdbcmd 4),
        u8 (cdbcmd 5), u8 (cdbcmd 6), u8 (cdbcmd 7), u8 (cdbcmd 8), u8 (cdbcmd 9),
        u8 (cdbcmd 10), u8 (cdbcmd 11), u8 (cdbcmd 12), u8 (cdbcmd 13), u8 (cdbcmd 14),
        u8 (cdbcmd 15)][i]? = some (cdbcmd i) := by
  have hc : ∀ j, j < 16 → u8 (cdbcmd j) = cdbcmd j :=
    fun j hj => Nat.mod_eq_of_lt (hcdb j hj)
  interval_cases i <;> simp [hc]

theorem next_istatus_eq (E : Env) (iobase : Nat) (s : State) :
    next_istatus E iobase s
      = istatus_at E iobase (reads_of (u32 (iobase + MPT_REG_ISTATUS)) s.log).length := rfl

theorem next_reply_eq (E : Env) (iobase : Nat) (s : State) :
    next_reply E iobase s
      = reply_at E iobase (reads_of (u32 (iobase + MPT_REG_REP_Q)) s.log).length := rfl

theorem reply_class_of_aliased (reply_msg resp : Nat) (hal : reply_msg % 8 = 0)
    (h : shl1 resp = u32 reply_msg ∨ shl1 resp = 0) :
    reply_class reply_msg resp = ReplyClass.aliased := by
  have hne : resp ≠ MPT_CONTEXT_MAGIC := by
    intro he; rw [he] at h; exact not_aliased_magic reply_msg hal h
  exact (reply_class_aliased_iff reply_msg resp hne).2 h

/-- From the top of `for (;;)`, if interrupt status shows a reply `d` reads
ahead at the latest, the loop reaches the body of the `do ... while` having
only read interrupt status. -/
theorem poll_reaches_drain (E : Env) (iobase : Nat) :
    ∀ (d : Nat) (s : State), s.pc = Pc.poll →
      istatus_at E iobase ((reads_of (u32 (iobase + MPT_REG_ISTATUS)) s.log).length + d)
          &&& MPT_IMASK_REPLY ≠ 0 →
      ∃ n t, run E iobase n s = t ∧ t.pc = Pc.drain ∧ t.retry = s.retry ∧
        (∀ p, writes_to p t.log = writes_to p s.log) ∧
        reads_of (u32 (iobase + MPT_REG_REP_Q)) t.log
          = reads_of (u32 (iobase + MPT_REG_REP_Q)) s.log ∧
        (reads_of (u32 (iobase + MPT_REG_ISTATUS)) t.log).length
          ≤ (reads_of (u32 (iobase + MPT_REG_ISTATUS)) s.log).length + d + 1 := by
  intro d
  induction d with
  | zero =>
    intro s hpc hbit
    refine ⟨1, step E iobase s, rfl, ?_⟩
    have hb : next_istatus E iobase s &&& MPT_IMASK_REPLY ≠ 0 := by
      rw [next_istatus_eq]; exact hbit
    rw [step_poll E iobase s hpc]
    simp [hb, reads_of_append, writes_to_append, reads_of_inl, writes_to_inl,
      port_istatus_ne_rep_q]
  | succ d ih =>
    intro s hpc hbit
    by_cases hb : next_istatus E iobase s &&& MPT_IMASK_REPLY ≠ 0
    · refine ⟨1, step E iobase s, rfl, ?_⟩
      rw [step_poll E iobase s hpc]
      simp [hb, reads_of_append, writes_to_append, reads_of_inl, writes_to_inl,
        port_istatus_ne_rep_q]
    · have h1 : (step E iobase s).pc = Pc.sleep := by
        rw [step_poll E iobase s hpc]; simp [hb]
      have h1l : (step E iobase s).log = s.log ++
          [Access.inl (u32 (iobase + MPT_REG_ISTATUS)) (next_istatus E iobase s)] := by
        rw [step_poll E iobase s hpc]
      have h1r : (step E iobase s).retry = s.retry := by
        rw [step_poll E iobase s hpc]
      have h2 := step_sleep E iobase (step E iobase s) h1
      have h2pc : (step E iobase (step E iobase s)).pc = Pc.poll := by rw [h2]
      have h2l : (step E iobase (step E iobase s)).log = s.log ++
          [Access.inl (u32 (iobase + MPT_REG_ISTATUS)) (next_istatus E iobase s)] := by
        rw [h2]; exact h1l
      have h2r : (step E iobase (step E iobase s)).retry = s.retry := by
        rw [h2]; exact h1r
      have hidx : (reads_of (u32 (iobase + MPT_REG_ISTATUS))
            (step E iobase (step E iobase s)).log).length + d
          = (reads_of (u32 (iobase + MPT_REG_ISTATUS)) s.log).length + (d + 1) := by
        rw [h2l]; simp [reads_of_append, reads_of_inl]; omega
      obtain ⟨n, t, hrun, htpc, htr, htw, htq, hti⟩ :=
        ih (step E iobase (step E iobase s)) h2pc (by rw [hidx]; exact hbit)
      refine ⟨2 + n, t, ?_, htpc, ?_, ?_, ?_, ?_⟩
      · rw [run_add]; exact hrun
      · rw [htr, h2r]
      · intro p; rw [htw p, h2l]; simp [writes_to_append, writes_to_inl]
      · rw [htq, h2l]; simp [reads_of_append, reads_of_inl, port_istatus_ne_rep_q]
      · omega

/-- From the label `try_again`: the request is submitted and, if interrupt
status shows a reply `d` reads ahead at the latest, the body of the
`do ... while` is reached. -/
theorem submit_reaches_drain (E : Env) (iobase : Nat) (d : Nat) (s : State)
    (hpc : s.pc = Pc.try_again)
    (hbit : istatus_at E iobase ((reads_of (u32 (iobase + MPT_REG_ISTATUS)) s.log).length + d)
          &&& MPT_IMASK_REPLY ≠ 0) :
    ∃ n t, run E iobase n s = t ∧ t.pc = Pc.drain ∧ t.retry = s.retry ∧
      writes_to (u32 (iobase + MPT_REG_REQ_Q)) t.log
        = writes_to (u32 (iobase + MPT_REG_REQ_Q)) s.log ++ [u32 E.req_fl] ∧
      reads_of (u32 (iobase + MPT_REG_REP_Q)) t.log
        = reads_of (u32 (iobase + MPT_REG_REP_Q)) s.log ∧
      (reads_of (u32 (iobase + MPT_REG_ISTATUS)) t.log).length
        ≤ (reads_of (u32 (iobase + MPT_REG_ISTATUS)) s.log).length + d + 1 := by
  have h1 := step_try_again E iobase s hpc
  have h1pc : (step E iobase s).pc = Pc.poll := by rw [h1]
  have h1l : (step E iobase s).log
      = s.log ++ [Access.outl (u32 E.req_fl) (u32 (iobase + MPT_REG_REQ_Q))] := by rw [h1]
  have h1r : (step E iobase s).retry = s.retry := by rw [h1]
  have hidx : (reads_of (u32 (iobase + MPT_REG_ISTATUS)) (step E iobase s).log).length
      = (reads_of (u32 (iobase + MPT_REG_ISTATUS)) s.log).length := by
    rw [h1l]; simp [reads_of_append, reads_of_outl]
  obtain ⟨n, t, hrun, htpc, htr, htw, htq, hti⟩ :=
    poll_reaches_drain E iobase d (step E iobase s) h1pc (by rw [hidx]; exact hbit)
  refine ⟨1 + n, t, ?_, htpc, ?_, ?_, ?_, ?_⟩
  · rw [run_add]; exact hrun
  · rw [htr, h1r]
  · rw [htw, h1l]; simp [writes_to_append, writes_to_outl]
  · rw [htq, h1l]; simp [reads_of_append, reads_of_outl]
  · omega

theorem entry_lun0 (E : Env) (cdb_is_read : (Nat → Nat) → Nat → Bool) (op : disk_op_s)
    (cdbcmd : Nat → Nat) (target blocksize : Nat) :
    (mpt_scsi_cmd_entry E cdb_is_read op cdbcmd target 0 blocksize).pc = Pc.try_again ∧
    (mpt_scsi_cmd_entry E cdb_is_read op cdbcmd target 0 blocksize).retry = 0 ∧
    (mpt_scsi_cmd_entry E cdb_is_read op cdbcmd target 0 blocksize).log = [] := by
  simp [mpt_scsi_cmd_entry]

/-- A command at LUN 0 whose first reply-queue value is an aliased reply, on a
controller that shows a reply in interrupt status at two reads `i < j`: the
loop reaches the body of the `do ... while` a second time, with retry = 1, two
submissions and one reply-queue value read. -/
theorem second_drain (E : Env) (cdb_is_read : (Nat → Nat) → Nat → Bool)
    (iobase : Nat) (op : disk_op_s) (cdbcmd : Nat → Nat) (target blocksize : Nat)
    (hal : E.reply_msg % 8 = 0) (i j : Nat) (hij : i < j)
    (hi : istatus_at E iobase i &&& MPT_IMASK_REPLY ≠ 0)
    (hj : istatus_at E iobase j &&& MPT_IMASK_REPLY ≠ 0)
    (h0 : shl1 (reply_at E iobase 0) = u32 E.reply_msg ∨ shl1 (reply_at E iobase 0) = 0) :
    ∃ n t, run E iobase n (mpt_scsi_cmd_entry E cdb_is_read op cdbcmd target 0 blocksize) = t ∧
      t.pc = Pc.drain ∧ t.retry = 1 ∧
      writes_to (u32 (iobase + MPT_REG_REQ_Q)) t.log = [u32 E.req_fl, u32 E.req_fl] ∧
      reads_of (u32 (iobase + MPT_REG_REP_Q)) t.log = [reply_at E iobase 0] := by
  obtain ⟨hpc0, hr0, hl0⟩ := entry_lun0 E cdb_is_read op cdbcmd target blocksize
  obtain ⟨n1, t1, hrun1, hpc1, hr1, hw1, hq1, hi1⟩ :=
    submit_reaches_drain E iobase i _ hpc0 (by rw [hl0]; simpa [reads_of] using hi)
  rw [hl0] at hw1 hq1 hi1
  rw [hr0] at hr1
  simp only [reads_of, writes_to, List.filterMap_nil, List.nil_append, List.length_nil,
    Nat.zero_add] at hw1 hq1 hi1
  have hw1' : writes_to (u32 (iobase + MPT_REG_REQ_Q)) t1.log = [u32 E.req_fl] := hw1
  have hq1' : reads_of (u32 (iobase + MPT_REG_REP_Q)) t1.log = [] := hq1
  have hi1' : (reads_of (u32 (iobase + MPT_REG_ISTATUS)) t1.log).length ≤ i + 1 := hi1
  have hnr : next_reply E iobase t1 = reply_at E iobase 0 := by
    rw [next_reply_eq, hq1']; rfl
  have hcl : reply_class E.reply_msg (next_reply E iobase t1) = ReplyClass.aliased := by
    rw [hnr]; exact reply_class_of_aliased _ _ hal h0
  have h2 := step_drain_aliased E iobase t1 hpc1 hcl
  have h2pc : (step E iobase t1).pc = Pc.try_again := by rw [h2]; simp [hr1]
  have h2r : (step E iobase t1).retry = 1 := by rw [h2]; simp [hr1]
  have h2l : (step E iobase t1).log
      = t1.log ++ [Access.inl (u32 (iobase + MPT_REG_REP_Q)) (reply_at E iobase 0)] := by
    rw [h2, hnr]
  have h2i : (reads_of (u32 (iobase + MPT_REG_ISTATUS)) (step E iobase t1).log).length
      = (reads_of (u32 (iobase + MPT_REG_ISTATUS)) t1.log).length := by
    rw [h2l]; simp [reads_of_append, reads_of_inl, port_rep_q_ne_istatus]
  obtain ⟨n2, t3, hrun3, hpc3, hr3, hw3, hq3, -⟩ :=
    submit_reaches_drain E iobase
      (j - (reads_of (u32 (iobase + MPT_REG_ISTATUS)) t1.log).length) (step E iobase t1) h2pc
      (by
        rw [h2i]
        have : (reads_of (u32 (iobase + MPT_REG_ISTATUS)) t1.log).length
            + (j - (reads_of (u32 (iobase + MPT_REG_ISTATUS)) t1.log).length) = j := by omega
        rw [this]; exact hj)
  refine ⟨n1 + (1 + n2), t3, ?_, hpc3, ?_, ?_, ?_⟩
  · rw [run_add, hrun1, run_add]; exact hrun3
  · rw [hr3, h2r]
  · rw [hw3, h2l]; simp [writes_to_append, writes_to_inl, hw1']
  · rw [hq3, h2l]; simp [reads_of_append, reads_of_inl, hq1']

theorem run_of_ret (E : Env) (iobase : Nat) (n m : Nat) (s t : State) (c : DiskRet)
    (hrun : run E iobase n s = t) (hpc : t.pc = Pc.ret c) (hm : n ≤ m) :
    run E iobase m s = t := by
  obtain ⟨k, rfl⟩ := Nat.exists_eq_add_of_le hm
  rw [run_add, hrun, run_ret E iobase k t c hpc]

theorem reply_class_cases (reply_msg resp : Nat) :
    (reply_class reply_msg resp = ReplyClass.completion ∧ resp = MPT_CONTEXT_MAGIC) ∨
    (reply_class reply_msg resp = ReplyClass.aliased ∧ is_aliased reply_msg resp = true) ∨
    (reply_class reply_msg resp = ReplyClass.skipped ∧ is_aliased reply_msg resp = false) ∨
    (reply_class reply_msg resp = ReplyClass.drained ∧ is_aliased reply_msg resp = false) := by
  unfold reply_class is_aliased
  split_ifs with h1 h2 h3
  · exact Or.inl ⟨rfl, h1⟩
  · exact Or.inr (Or.inl ⟨rfl, by simpa using h2⟩)
  · exact Or.inr (Or.inr (Or.inl ⟨rfl, by simpa using h2⟩))
  · exact Or.inr (Or.inr (Or.inr ⟨rfl, by simpa using h2⟩))

theorem is_aliased_magic (reply_msg : Nat) (hal : reply_msg % 8 = 0) :
    is_aliased reply_msg MPT_CONTEXT_MAGIC = false := by
  unfold is_aliased
  simpa using not_aliased_magic reply_msg hal

theorem aliased_count_append (reply_msg : Nat) (l : List Nat) (v : Nat) :
    aliased_count reply_msg (l ++ [v])
      = aliased_count reply_msg l + (if is_aliased reply_msg v = true then 1 else 0) := by
  simp [aliased_count, List.countP_append, List.countP_cons]

theorem loop_inv_entry (E : Env) (iobase : Nat) (cdb_is_read : (Nat → Nat) → Nat → Bool)
    (op : disk_op_s) (cdbcmd : Nat → Nat) (target blocksize : Nat) :
    loop_inv E iobase (mpt_scsi_cmd_entry E cdb_is_read op cdbcmd target 0 blocksize) := by
  simp [loop_inv, mpt_scsi_cmd_entry, writes_to, reads_of, aliased_count]

theorem loop_inv_step (E : Env) (iobase : Nat) (hal : E.reply_msg % 8 = 0) (s : State)
    (h : loop_inv E iobase s) : loop_inv E iobase (step E iobase s) := by
  obtain ⟨hr, hw, ha, hb, hs, hn⟩ := h
  cases hpc : s.pc with
  | try_again =>
    rw [step_try_again E iobase s hpc]
    rw [hpc] at hw ha
    simp only [if_true] at hw
    refine ⟨hr, ?_, ?_, ?_, ?_, ?_⟩
    · simp [writes_to_append, writes_to_outl, hw, List.replicate_succ']
    · simpa [reads_of_append, reads_of_outl] using ha
    · intro hc; cases hc
    · intro hc; cases hc
    · intro hc; cases hc
  | poll =>
    rw [step_poll E iobase s hpc]
    rw [hpc] at hw ha
    refine ⟨hr, ?_, ?_, ?_, ?_, ?_⟩
    · by_cases hbit : next_istatus E iobase s &&& MPT_IMASK_REPLY ≠ 0 <;>
        simpa [hbit, writes_to_append, writes_to_inl] using hw
    · by_cases hbit : next_istatus E iobase s &&& MPT_IMASK_REPLY ≠ 0 <;>
        simpa [hbit, reads_of_append, reads_of_inl, port_istatus_ne_rep_q] using ha
    · by_cases hbit : next_istatus E iobase s &&& MPT_IMASK_REPLY ≠ 0 <;> simp [hbit]
    · by_cases hbit : next_istatus E iobase s &&& MPT_IMASK_REPLY ≠ 0 <;> simp [hbit]
    · by_cases hbit : next_istatus E iobase s &&& MPT_IMASK_REPLY ≠ 0 <;> simp [hbit]
  | sleep =>
    rw [step_sleep E iobase s hpc]
    rw [hpc] at hw ha
    refine ⟨hr, ?_, ?_, ?_, ?_, ?_⟩
    · simpa using hw
    · simpa using ha
    · intro hc; cases hc
    · intro hc; cases hc
    · intro hc; cases hc
  | ret c =>
    rw [step_ret E iobase s c hpc]
    exact ⟨hr, hw, ha, hb, hs, hn⟩
  | drain =>
    rw [hpc] at hw ha
    simp only [if_false, reduceCtorEq] at hw ha
    rcases reply_class_cases E.reply_msg (next_reply E iobase s) with
      ⟨hc, hv⟩ | ⟨hc, hv⟩ | ⟨hc, hv⟩ | ⟨hc, hv⟩
    · rw [step_drain_completion E iobase s hpc hc]
      have hv' : is_aliased E.reply_msg (next_reply E iobase s) = false := by
        rw [hv]; exact is_aliased_magic _ hal
      refine ⟨hr, ?_, ?_, ?_, ?_, ?_⟩
      · simpa [writes_to_append, writes_to_inl] using hw
      · simp [reads_of_append, reads_of_inl, aliased_count_append, hv', ha]
      · intro hc'; cases hc'
      · intro _; simp [reads_of_append, reads_of_inl, hv]
      · intro hc'; cases hc'
    · rw [step_drain_aliased E iobase s hpc hc]
      by_cases h0 : s.retry = 0
      · refine ⟨by simp [h0], ?_, ?_, ?_, ?_, ?_⟩
        · simpa [h0, writes_to_append, writes_to_inl] using hw
        · simp [h0, reads_of_append, reads_of_inl, aliased_count_append, hv, ha]
        · simp [h0]
        · simp [h0]
        · simp [h0]
      · have h1 : s.retry = 1 := by omega
        refine ⟨by simp [h1], ?_, ?_, ?_, ?_, ?_⟩
        · simpa [h1, writes_to_append, writes_to_inl] using hw
        · simp [h1, reads_of_append, reads_of_inl, aliased_count_append, hv, ha]
        · simp [h1]
        · simp [h1]
        · simp [h1]
    · rw [step_drain_skipped E iobase s hpc hc]
      refine ⟨hr, ?_, ?_, ?_, ?_, ?_⟩
      · simpa [writes_to_append, writes_to_inl] using hw
      · simp [reads_of_append, reads_of_inl, aliased_count_append, hv, ha]
      · intro hc'; cases hc'
      · intro hc'; cases hc'
      · intro hc'; cases hc'
    · rw [step_drain_drained E iobase s hpc hc]
      refine ⟨hr, ?_, ?_, ?_, ?_, ?_⟩
      · simpa [writes_to_append, writes_to_inl] using hw
      · simp [reads_of_append, reads_of_inl, aliased_count_append, hv, ha]
      · intro hc'; cases hc'
      · intro hc'; cases hc'
      · intro hc'; cases hc'

theorem loop_inv_run (E : Env) (iobase : Nat) (hal : E.reply_msg % 8 = 0) (n : Nat) (s : State)
    (h : loop_inv E iobase s) : loop_inv E iobase (run E iobase n s) := by
  induction n with
  | zero => exact h
  | succ n ih => rw [run_succ_last]; exact loop_inv_step E iobase hal _ ih

/-! ## The claims -/

/-- C4: for every LUN other than 0, and all other arguments, `mpt_scsi_cmd`
returns DISK_RET_ENOTREADY and its log of port accesses is empty, whatever the
number of steps it is given. -/
theorem lun_nonzero_not_ready (E : Env) (cdb_is_read : (Nat → Nat) → Nat → Bool) (n : Nat)
    (llun : mpt_lun_s) (op : disk_op_s) (cdbcmd : Nat → Nat) (target lun blocksize : Nat)
    (hlun : lun ≠ 0) :
    (mpt_scsi_cmd E cdb_is_read n llun op cdbcmd target lun blocksize).result
        = some DiskRet.DISK_RET_ENOTREADY ∧
      (mpt_scsi_cmd E cdb_is_read n llun op cdbcmd target lun blocksize).log = [] := by
  have h : (mpt_scsi_cmd_entry E cdb_is_read op cdbcmd target lun blocksize).pc
      = Pc.ret DiskRet.DISK_RET_ENOTREADY := by
    simp [mpt_scsi_cmd_entry, hlun]
  have hl : (mpt_scsi_cmd_entry E cdb_is_read op cdbcmd target lun blocksize).log = [] := by
    unfold mpt_scsi_cmd_entry; simp only []; split <;> rfl
  unfold mpt_scsi_cmd
  rw [run_ret E llun.iobase n _ _ h]
  exact ⟨by simp [State.result, h], hl⟩

/-- Witness of C4 at LUN 1, with a controller that would answer every read with
the context magic. -/
theorem lun_nonzero_not_ready_witness :
    (mpt_scsi_cmd (env_ex (const_stream MPT_CONTEXT_MAGIC)) cdb_is_read_ex 10 llun_ex op_ex
        cdb_read10 2 1 512).result = some DiskRet.DISK_RET_ENOTREADY ∧
      (mpt_scsi_cmd (env_ex (const_stream MPT_CONTEXT_MAGIC)) cdb_is_read_ex 10 llun_ex op_ex
        cdb_read10 2 1 512).log = [] :=
  lun_nonzero_not_ready (env_ex (const_stream MPT_CONTEXT_MAGIC)) cdb_is_read_ex 10 llun_ex op_ex
    cdb_read10 2 1 512 (by decide)

/-- C5: the request of a command at LUN 0 has, at every point of the execution,
Control = 0 when the block size is 0; Control = 2<<24 and fBufferContainsData = 0
when the block size is non-zero and `cdb_is_read` holds; Control = 1<<24 and
fBufferContainsData = 1 when the block size is non-zero and it does not hold. -/
theorem control_word_direction (E : Env) (cdb_is_read : (Nat → Nat) → Nat → Bool) (n : Nat)
    (llun : mpt_lun_s) (op : disk_op_s) (cdbcmd : Nat → Nat) (target blocksize : Nat) :
    (blocksize = 0 →
      (mpt_scsi_cmd E cdb_is_read n llun op cdbcmd target 0 blocksize).req.scsi_io.Control = 0) ∧
    (blocksize ≠ 0 → cdb_is_read cdbcmd blocksize = true →
      (mpt_scsi_cmd E cdb_is_read n llun op cdbcmd target 0 blocksize).req.scsi_io.Control
          = 2 <<< 24 ∧
      (mpt_scsi_cmd E cdb_is_read n llun op cdbcmd target 0 blocksize).req.sge.fBufferContainsData
          = 0) ∧
    (blocksize ≠ 0 → cdb_is_read cdbcmd blocksize = false →
      (mpt_scsi_cmd E cdb_is_read n llun op cdbcmd target 0 blocksize).req.scsi_io.Control
          = 1 <<< 24 ∧
      (mpt_scsi_cmd E cdb_is_read n llun op cdbcmd target 0 blocksize).req.sge.fBufferContainsData
          = 1) := by
  rw [entry_req, copy_cdb_eq]
  refine ⟨?_, ?_, ?_⟩
  · intro h; simp [set_control, h]
  · intro h hr; simp [set_control, h, hr, req_init]
  · intro h hr; simp [set_control, h, hr]

/-- Witness of C5: a command without data, a READ(10) and a WRITE(10) of 512-byte
blocks. -/
theorem control_word_direction_witness :
    (mpt_scsi_cmd (env_ex (const_stream 0)) cdb_is_read_ex 5 llun_ex op_ex cdb_write10 2 0
        0).req.scsi_io.Control = 0 ∧
    ((mpt_scsi_cmd (env_ex (const_stream 0)) cdb_is_read_ex 5 llun_ex op_ex cdb_read10 2 0
        512).req.scsi_io.Control = 2 <<< 24 ∧
      (mpt_scsi_cmd (env_ex (const_stream 0)) cdb_is_read_ex 5 llun_ex op_ex cdb_read10 2 0
        512).req.sge.fBufferContainsData = 0) ∧
    ((mpt_scsi_cmd (env_ex (const_stream 0)) cdb_is_read_ex 5 llun_ex op_ex cdb_write10 2 0
        512).req.scsi_io.Control = 1 <<< 24 ∧
      (mpt_scsi_cmd (env_ex (const_stream 0)) cdb_is_read_ex 5 llun_ex op_ex cdb_write10 2 0
        512).req.sge.fBufferContainsData = 1) :=
  ⟨(control_word_direction (env_ex (const_stream 0)) cdb_is_read_ex 5 llun_ex op_ex cdb_write10 2
      0).1 rfl,
    (control_word_direction (env_ex (const_stream 0)) cdb_is_read_ex 5 llun_ex op_ex cdb_read10 2
      512).2.1 (by decide) (by decide),
    (control_word_direction (env_ex (const_stream 0)) cdb_is_read_ex 5 llun_ex op_ex cdb_write10 2
      512).2.2 (by decide) (by decide)⟩

/-- C6, counterexample: with 32768 blocks of 512 bytes the product is 2^24; the
DataLength field holds 16777216 and the 24-bit scatter-gather length holds 0,
so the two fields differ and the second is not the product. -/
theorem sg_length_counterexample :
    (mpt_scsi_cmd (env_ex (const_stream 0)) cdb_is_read_ex 1 llun_ex
        { buf_fl := 0x7c00, count := 32768 } cdb_read10 2 0 512).req.scsi_io.DataLength
        = 16777216 ∧
    (mpt_scsi_cmd (env_ex (const_stream 0)) cdb_is_read_ex 1 llun_ex
        { buf_fl := 0x7c00, count := 32768 } cdb_read10 2 0 512).req.sge.u24Length = 0 ∧
    (mpt_scsi_cmd (env_ex (const_stream 0)) cdb_is_read_ex 1 llun_ex
        { buf_fl := 0x7c00, count := 32768 } cdb_read10 2 0 512).req.sge.u24Length
      ≠ 32768 * 512 := by
  rw [entry_req, copy_cdb_eq]
  simp [set_control, cdb_is_read_ex, cdb_read10, req_init, u32, u24]

/-- C6, amended: for every 16-bit block count and block size, DataLength is the
product count × size and the scatter-gather length u24Length is the product
modulo 2^24; the two fields are equal exactly when the product is below 2^24. -/
theorem sg_length_data_length (E : Env) (cdb_is_read : (Nat → Nat) → Nat → Bool) (n : Nat)
    (llun : mpt_lun_s) (op : disk_op_s) (cdbcmd : Nat → Nat) (target blocksize : Nat)
    (hcount : op.count < 2 ^ 16) (hsize : blocksize < 2 ^ 16) :
    (mpt_scsi_cmd E cdb_is_read n llun op cdbcmd target 0 blocksize).req.scsi_io.DataLength
        = op.count * blocksize ∧
    (mpt_scsi_cmd E cdb_is_read n llun op cdbcmd target 0 blocksize).req.sge.u24Length
        = (op.count * blocksize) % 2 ^ 24 ∧
    ((mpt_scsi_cmd E cdb_is_read n llun op cdbcmd target 0 blocksize).req.sge.u24Length
        = (mpt_scsi_cmd E cdb_is_read n llun op cdbcmd target 0 blocksize).req.scsi_io.DataLength
      ↔ op.count * blocksize < 2 ^ 24) := by
  have hprod : op.count * blocksize < 4294967296 := by
    have h2 : op.count * blocksize < 2 ^ 16 * 2 ^ 16 := by
      rcases Nat.eq_zero_or_pos blocksize with h0 | h0
      · rw [h0]; simp
      · calc op.count * blocksize < 2 ^ 16 * blocksize := Nat.mul_lt_mul_of_pos_right hcount h0
          _ ≤ 2 ^ 16 * 2 ^ 16 := Nat.mul_le_mul_left _ (Nat.le_of_lt hsize)
    omega
  have hd : (mpt_scsi_cmd E cdb_is_read n llun op cdbcmd target 0 blocksize).req.scsi_io.DataLength
      = op.count * blocksize := by
    rw [entry_req, copy_cdb_eq]
    unfold set_control
    split_ifs <;> simp [req_init, u32, hprod]
  have hs : (mpt_scsi_cmd E cdb_is_read n llun op cdbcmd target 0 blocksize).req.sge.u24Length
      = (op.count * blocksize) % 2 ^ 24 := by
    rw [entry_req, copy_cdb_eq]
    unfold set_control
    split_ifs <;> simp [req_init, u24]
  refine ⟨hd, hs, ?_⟩
  rw [hd, hs]
  constructor
  · intro h; omega
  · intro h; exact Nat.mod_eq_of_lt h

/-- Witness of C6 (amended): four blocks of 512 bytes give 2048 in both fields. -/
theorem sg_length_data_length_witness :
    (mpt_scsi_cmd (env_ex (const_stream 0)) cdb_is_read_ex 3 llun_ex op_ex cdb_read10 2 0
        512).req.scsi_io.DataLength = 4 * 512 ∧
    (mpt_scsi_cmd (env_ex (const_stream 0)) cdb_is_read_ex 3 llun_ex op_ex cdb_read10 2 0
        512).req.sge.u24Length = (4 * 512) % 2 ^ 24 ∧
    ((mpt_scsi_cmd (env_ex (const_stream 0)) cdb_is_read_ex 3 llun_ex op_ex cdb_read10 2 0
        512).req.sge.u24Length
      = (mpt_scsi_cmd (env_ex (const_stream 0)) cdb_is_read_ex 3 llun_ex op_ex cdb_read10 2 0
        512).req.scsi_io.DataLength
      ↔ 4 * 512 < 2 ^ 24) :=
  sg_length_data_length (env_ex (const_stream 0)) cdb_is_read_ex 3 llun_ex op_ex cdb_read10 2 512
    (by decide) (by decide)

/-- C7, counterexample: with `reply_msg` at 0xf6a40 the reply value 0x80000000,
which is neither the context magic nor zero and whose shift is not the address
of `reply_msg`, is treated as an aliased reply: a drain step with retry 0 that
reads it goes back to `try_again` with retry 1. -/
theorem aliased_iff_counterexample :
    (0x80000000 : Nat) < 2 ^ 32 ∧ (0x80000000 : Nat) ≠ MPT_CONTEXT_MAGIC ∧
    reply_class 0xf6a40 0x80000000 = ReplyClass.aliased ∧
    ¬ ((0x80000000 : Nat) = 0 ∨ shl1 0x80000000 = u32 0xf6a40) ∧
    (step (env_ex (const_stream 0x80000000)) 0x1000
        { pc := Pc.drain, retry := 0, req := req_init (env_ex (const_stream 0x80000000)) op_ex 2 0 512,
          log := [], slept := 0 }).pc = Pc.try_again ∧
    (step (env_ex (const_stream 0x80000000)) 0x1000
        { pc := Pc.drain, retry := 0, req := req_init (env_ex (const_stream 0x80000000)) op_ex 2 0 512,
          log := [], slept := 0 }).retry = 1 := by
  refine ⟨by decide, by decide, by decide, by decide, by decide, by decide⟩

/-- C7, amended: a 32-bit reply value other than the context magic is treated
as an aliased reply exactly when its left shift by one, modulo 2^32, is zero
(the value is 0 or 0x80000000) or equals the address of `reply_msg`. -/
theorem aliased_iff_shift (reply_msg resp : Nat) (hresp : resp < 2 ^ 32)
    (hne : resp ≠ MPT_CONTEXT_MAGIC) :
    reply_class reply_msg resp = ReplyClass.aliased ↔
      (resp = 0 ∨ resp = 0x80000000 ∨ shl1 resp = u32 reply_msg) := by
  rw [reply_class_aliased_iff reply_msg resp hne, shl1_eq]
  constructor
  · rintro (h | h)
    · exact Or.inr (Or.inr h)
    · omega
  · rintro (h | h | h)
    · right; omega
    · right; omega
    · exact Or.inl h

/-- Witness of C7 (amended) at the reply value 0x80000000. -/
theorem aliased_iff_shift_witness :
    reply_class 0xf6a40 0x80000000 = ReplyClass.aliased ↔
      ((0x80000000 : Nat) = 0 ∨ (0x80000000 : Nat) = 0x80000000 ∨ shl1 0x80000000 = u32 0xf6a40) :=
  aliased_iff_shift 0xf6a40 0x80000000 (by decide) (by decide)

/-- C8: for an 8-byte-aligned address of `reply_msg` and every reply value, no
two of the three tests (equal to the context magic; shift equal to the address
of `reply_msg` or to 0; equal to 0xffffffff) hold together, neither 0xaaaa5555
nor 0xffffffff passes the aliased test, and the class the code assigns, testing
in its own order, is the class of the one test that holds. -/
theorem reply_classes_disjoint (reply_msg resp : Nat) (hal : reply_msg % 8 = 0) :
    ¬ (resp = MPT_CONTEXT_MAGIC ∧ (shl1 resp = u32 reply_msg ∨ shl1 resp = 0)) ∧
    ¬ ((shl1 resp = u32 reply_msg ∨ shl1 resp = 0) ∧ resp = 0xffffffff) ∧
    ¬ (resp = MPT_CONTEXT_MAGIC ∧ resp = 0xffffffff) ∧
    ¬ (shl1 MPT_CONTEXT_MAGIC = u32 reply_msg ∨ shl1 MPT_CONTEXT_MAGIC = 0) ∧
    ¬ (shl1 0xffffffff = u32 reply_msg ∨ shl1 0xffffffff = 0) ∧
    (reply_class reply_msg resp = ReplyClass.completion ↔ resp = MPT_CONTEXT_MAGIC) ∧
    (reply_class reply_msg resp = ReplyClass.aliased ↔
      (shl1 resp = u32 reply_msg ∨ shl1 resp = 0)) ∧
    (reply_class reply_msg resp = ReplyClass.drained ↔ resp = 0xffffffff) := by
  have hm := not_aliased_magic reply_msg hal
  have ho := not_aliased_ones reply_msg hal
  refine ⟨?_, ?_, ?_, hm, ho, ?_, ?_, ?_⟩
  · rintro ⟨h1, h2⟩; rw [h1] at h2; exact hm h2
  · rintro ⟨h1, h2⟩; rw [h2] at h1; exact ho h1
  · rintro ⟨h1, h2⟩; rw [h1] at h2; revert h2; decide
  · constructor
    · intro h
      by_contra hne
      unfold reply_class at h
      simp only [hne, if_false] at h
      split_ifs at h
    · intro h; rw [h]; exact reply_class_magic reply_msg
  · by_cases hmg : resp = MPT_CONTEXT_MAGIC
    · rw [hmg, reply_class_magic]
      constructor
      · intro h; cases h
      · intro h; exact absurd h hm
    · exact reply_class_aliased_iff reply_msg resp hmg
  · constructor
    · intro h
      by_contra hne
      unfold reply_class at h
      split_ifs at h
    · intro h; rw [h]; exact reply_class_ones reply_msg hal

/-- Witness of C8: `reply_msg` at 0xf6a40 and the reply value 0x7b520, whose
shift is that address. -/
theorem reply_classes_disjoint_witness :
    ¬ ((0x7b520 : Nat) = MPT_CONTEXT_MAGIC ∧ (shl1 0x7b520 = u32 0xf6a40 ∨ shl1 0x7b520 = 0)) ∧
    ¬ ((shl1 0x7b520 = u32 0xf6a40 ∨ shl1 0x7b520 = 0) ∧ (0x7b520 : Nat) = 0xffffffff) ∧
    ¬ ((0x7b520 : Nat) = MPT_CONTEXT_MAGIC ∧ (0x7b520 : Nat) = 0xffffffff) ∧
    ¬ (shl1 MPT_CONTEXT_MAGIC = u32 0xf6a40 ∨ shl1 MPT_CONTEXT_MAGIC = 0) ∧
    ¬ (shl1 0xffffffff = u32 0xf6a40 ∨ shl1 0xffffffff = 0) ∧
    (reply_class 0xf6a40 0x7b520 = ReplyClass.completion ↔ (0x7b520 : Nat) = MPT_CONTEXT_MAGIC) ∧
    (reply_class 0xf6a40 0x7b520 = ReplyClass.aliased ↔
      (shl1 0x7b520 = u32 0xf6a40 ∨ shl1 0x7b520 = 0)) ∧
    (reply_class 0xf6a40 0x7b520 = ReplyClass.drained ↔ (0x7b520 : Nat) = 0xffffffff) :=
  reply_classes_disjoint 0xf6a40 0x7b520 (by decide)

/-- C10: at every point of the execution of a command at LUN 0, for every
target that fits the `u8` field `target` of `struct mpt_lun_s` (line 49), from
which the only call of `mpt_scsi_cmd` takes it (lines 235-237), the request has
TargetID = target, Bus = 0, Function = 0, CDBLength = 16, SenseBufferLength = 32,
MessageContext = 0xaaaa5555, all eight LUN bytes zero (byte 1 holds LUN 0),
CDB[i] equal to byte i of the command block for i in 0..15, and a
scatter-gather entry with fEndOfList = fEndOfBuffer = fLastElement = 1 and
DataBufferAddressLow equal to the transfer buffer address. -/
theorem request_frame_fields (E : Env) (cdb_is_read : (Nat → Nat) → Nat → Bool) (n : Nat)
    (llun : mpt_lun_s) (op : disk_op_s) (cdbcmd : Nat → Nat) (target blocksize : Nat)
    (htarget : target < 2 ^ 8) (hbuf : op.buf_fl < 2 ^ 32)
    (hcdb : ∀ i, i < 16 → cdbcmd i < 2 ^ 8) :
    (mpt_scsi_cmd E cdb_is_read n llun op cdbcmd target 0 blocksize).req.scsi_io.TargetID
        = target ∧
    (mpt_scsi_cmd E cdb_is_read n llun op cdbcmd target 0 blocksize).req.scsi_io.Bus = 0 ∧
    (mpt_scsi_cmd E cdb_is_read n llun op cdbcmd target 0 blocksize).req.scsi_io.Function = 0 ∧
    (mpt_scsi_cmd E cdb_is_read n llun op cdbcmd target 0 blocksize).req.scsi_io.CDBLength = 16 ∧
    (mpt_scsi_cmd E cdb_is_read n llun op cdbcmd target 0 blocksize).req.scsi_io.SenseBufferLength
        = 32 ∧
    (mpt_scsi_cmd E cdb_is_read n llun op cdbcmd target 0 blocksize).req.scsi_io.MessageContext
        = 0xaaaa5555 ∧
    (mpt_scsi_cmd E cdb_is_read n llun op cdbcmd target 0 blocksize).req.scsi_io.LUN
        = [0, 0, 0, 0, 0, 0, 0, 0] ∧
    (∀ i, i < 16 →
      (mpt_scsi_cmd E cdb_is_read n llun op cdbcmd target 0 blocksize).req.scsi_io.CDB[i]?
        = some (cdbcmd i)) ∧
    (mpt_scsi_cmd E cdb_is_read n llun op cdbcmd target 0 blocksize).req.scsi_io.CDB.length = 16 ∧
    (mpt_scsi_cmd E cdb_is_read n llun op cdbcmd target 0 blocksize).req.sge.fEndOfList = 1 ∧
    (mpt_scsi_cmd E cdb_is_read n llun op cdbcmd target 0 blocksize).req.sge.fEndOfBuffer = 1 ∧
    (mpt_scsi_cmd E cdb_is_read n llun op cdbcmd target 0 blocksize).req.sge.fLastElement = 1 ∧
    (mpt_scsi_cmd E cdb_is_read n llun op cdbcmd target 0 blocksize).req.sge.DataBufferAddressLow
        = op.buf_fl := by
  have hb : op.buf_fl % 4294967296 = op.buf_fl := Nat.mod_eq_of_lt hbuf
  have ht : target % 256 = target := Nat.mod_eq_of_lt htarget
  rw [entry_req, copy_cdb_eq]
  have hcdb0 : (set_control cdb_is_read cdbcmd blocksize (req_init E op target 0 blocksize)).scsi_io.CDB
      = [0, 0, 0, 0, 0, 0, 0, 0, 0, 0, 0, 0, 0, 0, 0, 0] := by
    unfold set_control
    split_ifs <;> rfl
  refine ⟨?_, ?_, ?_, ?_, ?_, ?_, ?_, ?_, ?_, ?_, ?_, ?_, ?_⟩
  · unfold set_control; split_ifs <;> simp [req_init, u8, ht]
  · unfold set_control; split_ifs <;> simp [req_init]
  · unfold set_control; split_ifs <;> simp [req_init, MPT_MESSAGE_HDR_FUNCTION_SCSI_IO_REQUEST]
  · unfold set_control; split_ifs <;> simp [req_init]
  · unfold set_control; split_ifs <;> simp [req_init]
  · unfold set_control; split_ifs <;> simp [req_init, MPT_CONTEXT_MAGIC]
  · unfold set_control; split_ifs <;> simp [req_init, u8]
  · intro i hi
    simp only [hcdb0, foldl_cdb_zero]
    exact cdb_bytes_get cdbcmd hcdb i hi
  · simp only [hcdb0, foldl_cdb_zero]
    rfl
  · unfold set_control; split_ifs <;> simp [req_init]
  · unfold set_control; split_ifs <;> simp [req_init]
  · unfold set_control; split_ifs <;> simp [req_init]
  · unfold set_control; split_ifs <;> simp [req_init, u32, hb]

/-- Witness of C10: a READ(10) for target 2. -/
theorem request_frame_fields_witness :
    (mpt_scsi_cmd (env_ex (const_stream 0)) cdb_is_read_ex 4 llun_ex op_ex cdb_read10 2 0
        512).req.scsi_io.TargetID = 2 ∧
    (mpt_scsi_cmd (env_ex (const_stream 0)) cdb_is_read_ex 4 llun_ex op_ex cdb_read10 2 0
        512).req.scsi_io.CDB[0]? = some (cdb_read10 0) ∧
    (mpt_scsi_cmd (env_ex (const_stream 0)) cdb_is_read_ex 4 llun_ex op_ex cdb_read10 2 0
        512).req.sge.DataBufferAddressLow = op_ex.buf_fl :=
  have h := request_frame_fields (env_ex (const_stream 0)) cdb_is_read_ex 4 llun_ex op_ex
    cdb_read10 2 512 (by decide) (by decide)
    (by intro i _; unfold cdb_read10; split_ifs <;> decide)
  ⟨h.1, h.2.2.2.2.2.2.2.1 0 (by decide), h.2.2.2.2.2.2.2.2.2.2.2.2⟩

/-- C1: a command at LUN 0, on a controller whose interrupt status shows a reply
at two reads, whose first reply-queue value is an aliased reply and whose second
is 0xaaaa5555, returns DISK_RET_SUCCESS: from some number of steps on, the
result is success, the request address has been written to the request queue
exactly twice, and the reply queue has been read exactly twice. -/
theorem retry_then_success (E : Env) (cdb_is_read : (Nat → Nat) → Nat → Bool)
    (llun : mpt_lun_s) (op : disk_op_s) (cdbcmd : Nat → Nat) (target blocksize : Nat)
    (hal : E.reply_msg % 8 = 0) (i j : Nat) (hij : i < j)
    (hi : istatus_at E llun.iobase i &&& MPT_IMASK_REPLY ≠ 0)
    (hj : istatus_at E llun.iobase j &&& MPT_IMASK_REPLY ≠ 0)
    (h0 : shl1 (reply_at E llun.iobase 0) = u32 E.reply_msg ∨
      shl1 (reply_at E llun.iobase 0) = 0)
    (h1 : reply_at E llun.iobase 1 = MPT_CONTEXT_MAGIC) :
    ∃ n, ∀ m, n ≤ m →
      (mpt_scsi_cmd E cdb_is_read m llun op cdbcmd target 0 blocksize).result
        = some DiskRet.DISK_RET_SUCCESS ∧
      writes_to (u32 (llun.iobase + MPT_REG_REQ_Q))
          (mpt_scsi_cmd E cdb_is_read m llun op cdbcmd target 0 blocksize).log
        = [u32 E.req_fl, u32 E.req_fl] ∧
      reads_of (u32 (llun.iobase + MPT_REG_REP_Q))
          (mpt_scsi_cmd E cdb_is_read m llun op cdbcmd target 0 blocksize).log
        = [reply_at E llun.iobase 0, MPT_CONTEXT_MAGIC] := by
  obtain ⟨n, t, hrun, hpc, _, hw, hq⟩ :=
    second_drain E cdb_is_read llun.iobase op cdbcmd target blocksize hal i j hij hi hj h0
  have hnr : next_reply E llun.iobase t = MPT_CONTEXT_MAGIC := by
    rw [next_reply_eq, hq]; exact h1
  have hcl : reply_class E.reply_msg (next_reply E llun.iobase t) = ReplyClass.completion := by
    rw [hnr]; exact reply_class_magic _
  have hs := step_drain_completion E llun.iobase t hpc hcl
  have hfin : run E llun.iobase (n + 1)
      (mpt_scsi_cmd_entry E cdb_is_read op cdbcmd target 0 blocksize) = step E llun.iobase t := by
    rw [run_succ_last, hrun]
  have hspc : (step E llun.iobase t).pc = Pc.ret DiskRet.DISK_RET_SUCCESS := by rw [hs]
  refine ⟨n + 1, fun m hm => ?_⟩
  unfold mpt_scsi_cmd
  rw [run_of_ret E llun.iobase (n + 1) m _ _ _ hfin hspc hm]
  refine ⟨by simp [State.result, hspc], ?_, ?_⟩
  · rw [hs]; simp [writes_to_append, writes_to_inl, hw]
  · rw [hs, hnr]; simp [reads_of_append, reads_of_inl, hq]

/-- C2: a command at LUN 0, on a controller whose interrupt status shows a reply
at two reads and whose first two reply-queue values are both aliased replies,
returns DISK_RET_EBADTRACK: from some number of steps on, the result is the
bad-track error and the request queue has been written exactly twice. -/
theorem retry_exhausted (E : Env) (cdb_is_read : (Nat → Nat) → Nat → Bool)
    (llun : mpt_lun_s) (op : disk_op_s) (cdbcmd : Nat → Nat) (target blocksize : Nat)
    (hal : E.reply_msg % 8 = 0) (i j : Nat) (hij : i < j)
    (hi : istatus_at E llun.iobase i &&& MPT_IMASK_REPLY ≠ 0)
    (hj : istatus_at E llun.iobase j &&& MPT_IMASK_REPLY ≠ 0)
    (h0 : shl1 (reply_at E llun.iobase 0) = u32 E.reply_msg ∨
      shl1 (reply_at E llun.iobase 0) = 0)
    (h1 : shl1 (reply_at E llun.iobase 1) = u32 E.reply_msg ∨
      shl1 (reply_at E llun.iobase 1) = 0) :
    ∃ n, ∀ m, n ≤ m →
      (mpt_scsi_cmd E cdb_is_read m llun op cdbcmd target 0 blocksize).result
        = some DiskRet.DISK_RET_EBADTRACK ∧
      writes_to (u32 (llun.iobase + MPT_REG_REQ_Q))
          (mpt_scsi_cmd E cdb_is_read m llun op cdbcmd target 0 blocksize).log
        = [u32 E.req_fl, u32 E.req_fl] ∧
      reads_of (u32 (llun.iobase + MPT_REG_REP_Q))
          (mpt_scsi_cmd E cdb_is_read m llun op cdbcmd target 0 blocksize).log
        = [reply_at E llun.iobase 0, reply_at E llun.iobase 1] := by
  obtain ⟨n, t, hrun, hpc, hr, hw, hq⟩ :=
    second_drain E cdb_is_read llun.iobase op cdbcmd target blocksize hal i j hij hi hj h0
  have hnr : next_reply E llun.iobase t = reply_at E llun.iobase 1 := by
    rw [next_reply_eq, hq]; rfl
  have hcl : reply_class E.reply_msg (next_reply E llun.iobase t) = ReplyClass.aliased := by
    rw [hnr]; exact reply_class_of_aliased _ _ hal h1
  have hs := step_drain_aliased E llun.iobase t hpc hcl
  have hfin : run E llun.iobase (n + 1)
      (mpt_scsi_cmd_entry E cdb_is_read op cdbcmd target 0 blocksize) = step E llun.iobase t := by
    rw [run_succ_last, hrun]
  have hspc : (step E llun.iobase t).pc = Pc.ret DiskRet.DISK_RET_EBADTRACK := by
    rw [hs]; simp [hr]
  refine ⟨n + 1, fun m hm => ?_⟩
  unfold mpt_scsi_cmd
  rw [run_of_ret E llun.iobase (n + 1) m _ _ _ hfin hspc hm]
  refine ⟨by simp [State.result, hspc], ?_, ?_⟩
  · rw [hs]; simp [writes_to_append, writes_to_inl, hw]
  · rw [hs, hnr]; simp [reads_of_append, reads_of_inl, hq]

/-- Witness of C1: interrupt status shows a reply at its reads 1 and 3, the
reply queue returns 0x7b520 (whose shift is the address of `reply_msg`) and
then the context magic. -/
theorem retry_then_success_witness :
    ∃ n, ∀ m, n ≤ m →
      (mpt_scsi_cmd (env_ex (two_reply_stream 0x7b520 MPT_CONTEXT_MAGIC)) cdb_is_read_ex m
          llun_ex op_ex cdb_read10 2 0 512).result = some DiskRet.DISK_RET_SUCCESS ∧
      writes_to (u32 (llun_ex.iobase + MPT_REG_REQ_Q))
          (mpt_scsi_cmd (env_ex (two_reply_stream 0x7b520 MPT_CONTEXT_MAGIC)) cdb_is_read_ex m
            llun_ex op_ex cdb_read10 2 0 512).log
        = [u32 (env_ex (two_reply_stream 0x7b520 MPT_CONTEXT_MAGIC)).req_fl,
            u32 (env_ex (two_reply_stream 0x7b520 MPT_CONTEXT_MAGIC)).req_fl] ∧
      reads_of (u32 (llun_ex.iobase + MPT_REG_REP_Q))
          (mpt_scsi_cmd (env_ex (two_reply_stream 0x7b520 MPT_CONTEXT_MAGIC)) cdb_is_read_ex m
            llun_ex op_ex cdb_read10 2 0 512).log
        = [reply_at (env_ex (two_reply_stream 0x7b520 MPT_CONTEXT_MAGIC)) llun_ex.iobase 0,
            MPT_CONTEXT_MAGIC] :=
  retry_then_success (env_ex (two_reply_stream 0x7b520 MPT_CONTEXT_MAGIC)) cdb_is_read_ex
    llun_ex op_ex cdb_read10 2 512 (by decide) 1 3 (by decide) (by decide) (by decide)
    (by decide) (by decide)

/-- Witness of C2: interrupt status shows a reply at its reads 1 and 3, the
reply queue returns 0x7b520 and then 0x80000000. -/
theorem retry_exhausted_witness :
    ∃ n, ∀ m, n ≤ m →
      (mpt_scsi_cmd (env_ex (two_reply_stream 0x7b520 0x80000000)) cdb_is_read_ex m
          llun_ex op_ex cdb_read10 2 0 512).result = some DiskRet.DISK_RET_EBADTRACK ∧
      writes_to (u32 (llun_ex.iobase + MPT_REG_REQ_Q))
          (mpt_scsi_cmd (env_ex (two_reply_stream 0x7b520 0x80000000)) cdb_is_read_ex m
            llun_ex op_ex cdb_read10 2 0 512).log
        = [u32 (env_ex (two_reply_stream 0x7b520 0x80000000)).req_fl,
            u32 (env_ex (two_reply_stream 0x7b520 0x80000000)).req_fl] ∧
      reads_of (u32 (llun_ex.iobase + MPT_REG_REP_Q))
          (mpt_scsi_cmd (env_ex (two_reply_stream 0x7b520 0x80000000)) cdb_is_read_ex m
            llun_ex op_ex cdb_read10 2 0 512).log
        = [reply_at (env_ex (two_reply_stream 0x7b520 0x80000000)) llun_ex.iobase 0,
            reply_at (env_ex (two_reply_stream 0x7b520 0x80000000)) llun_ex.iobase 1] :=
  retry_exhausted (env_ex (two_reply_stream 0x7b520 0x80000000)) cdb_is_read_ex
    llun_ex op_ex cdb_read10 2 512 (by decide) 1 3 (by decide) (by decide) (by decide)
    (by decide) (by decide)

/-- C3: in the body of the `do ... while`, whatever the value of `retry`: if the
reply queue returns 0xaaaa5555 the command returns DISK_RET_SUCCESS at that
step, having added only that read to the log, and no later step changes
anything; if it returns 0xffffffff the drain ends without a return value, with
`retry` unchanged, and the next port access is a read of interrupt status. -/
theorem sentinel_replies (E : Env) (iobase : Nat) (s : State) (hpc : s.pc = Pc.drain)
    (hal : E.reply_msg % 8 = 0) :
    (next_reply E iobase s = MPT_CONTEXT_MAGIC →
      (step E iobase s).result = some DiskRet.DISK_RET_SUCCESS ∧
      (step E iobase s).log
        = s.log ++ [Access.inl (u32 (iobase + MPT_REG_REP_Q)) MPT_CONTEXT_MAGIC] ∧
      ∀ n, run E iobase n (step E iobase s) = step E iobase s) ∧
    (next_reply E iobase s = 0xffffffff →
      (run E iobase 1 s).result = none ∧ (run E iobase 2 s).result = none ∧
      (run E iobase 3 s).result = none ∧
      (run E iobase 1 s).pc = Pc.sleep ∧ (run E iobase 1 s).retry = s.retry ∧
      (run E iobase 1 s).log = s.log ++ [Access.inl (u32 (iobase + MPT_REG_REP_Q)) 0xffffffff] ∧
      (run E iobase 2 s).log = (run E iobase 1 s).log ∧
      (run E iobase 3 s).log
        = s.log ++ [Access.inl (u32 (iobase + MPT_REG_REP_Q)) 0xffffffff,
            Access.inl (u32 (iobase + MPT_REG_ISTATUS))
              (next_istatus E iobase (run E iobase 2 s))]) := by
  constructor
  · intro hv
    have hc : reply_class E.reply_msg (next_reply E iobase s) = ReplyClass.completion := by
      rw [hv]; exact reply_class_magic _
    have hs := step_drain_completion E iobase s hpc hc
    have hspc : (step E iobase s).pc = Pc.ret DiskRet.DISK_RET_SUCCESS := by rw [hs]
    refine ⟨by simp [State.result, hspc], by rw [hs, hv], fun n => ?_⟩
    exact run_ret E iobase n _ _ hspc
  · intro hv
    have hc : reply_class E.reply_msg (next_reply E iobase s) = ReplyClass.drained := by
      rw [hv]; exact reply_class_ones _ hal
    have hs := step_drain_drained E iobase s hpc hc
    have h1 : run E iobase 1 s = step E iobase s := rfl
    have h1pc : (step E iobase s).pc = Pc.sleep := by rw [hs]
    have h2 : run E iobase 2 s = step E iobase (step E iobase s) := rfl
    have h2s := step_sleep E iobase (step E iobase s) h1pc
    have h2pc : (step E iobase (step E iobase s)).pc = Pc.poll := by rw [h2s]
    have h3 : run E iobase 3 s = step E iobase (step E iobase (step E iobase s)) := rfl
    have h3s := step_poll E iobase (step E iobase (step E iobase s)) h2pc
    have h2l : (step E iobase (step E iobase s)).log = (step E iobase s).log := by rw [h2s]
    have h1l : (step E iobase s).log
        = s.log ++ [Access.inl (u32 (iobase + MPT_REG_REP_Q)) 0xffffffff] := by rw [hs, hv]
    refine ⟨?_, ?_, ?_, ?_, ?_, ?_, ?_, ?_⟩
    · rw [h1]; simp [State.result, h1pc]
    · rw [h2]; simp [State.result, h2pc]
    · rw [h3, h3s]
      by_cases hbit : next_istatus E iobase (step E iobase (step E iobase s))
          &&& MPT_IMASK_REPLY ≠ 0 <;> simp [State.result, hbit]
    · rw [h1]; exact h1pc
    · rw [h1, hs]
    · rw [h1]; exact h1l
    · rw [h2, h1]; exact h2l
    · rw [h3, h3s, h2]; simp [h2l, h1l]

/-- Witness of C3: a drain state with retry = 1 on a reply queue that returns
the context magic, and one with retry = 0 on a reply queue that returns
0xffffffff. -/
theorem sentinel_replies_witness :
    ((step (env_ex (const_stream MPT_CONTEXT_MAGIC)) 0x1000
        (drain_state_ex (env_ex (const_stream MPT_CONTEXT_MAGIC)) 1)).result
        = some DiskRet.DISK_RET_SUCCESS ∧
      (step (env_ex (const_stream MPT_CONTEXT_MAGIC)) 0x1000
        (drain_state_ex (env_ex (const_stream MPT_CONTEXT_MAGIC)) 1)).log
        = (drain_state_ex (env_ex (const_stream MPT_CONTEXT_MAGIC)) 1).log
          ++ [Access.inl (u32 (0x1000 + MPT_REG_REP_Q)) MPT_CONTEXT_MAGIC] ∧
      ∀ n, run (env_ex (const_stream MPT_CONTEXT_MAGIC)) 0x1000 n
          (step (env_ex (const_stream MPT_CONTEXT_MAGIC)) 0x1000
            (drain_state_ex (env_ex (const_stream MPT_CONTEXT_MAGIC)) 1))
        = step (env_ex (const_stream MPT_CONTEXT_MAGIC)) 0x1000
            (drain_state_ex (env_ex (const_stream MPT_CONTEXT_MAGIC)) 1)) ∧
    ((run (env_ex (const_stream 0xffffffff)) 0x1000 1
        (drain_state_ex (env_ex (const_stream 0xffffffff)) 0)).result = none ∧
      (run (env_ex (const_stream 0xffffffff)) 0x1000 2
        (drain_state_ex (env_ex (const_stream 0xffffffff)) 0)).result = none ∧
      (run (env_ex (const_stream 0xffffffff)) 0x1000 3
        (drain_state_ex (env_ex (const_stream 0xffffffff)) 0)).result = none ∧
      (run (env_ex (const_stream 0xffffffff)) 0x1000 1
        (drain_state_ex (env_ex (const_stream 0xffffffff)) 0)).pc = Pc.sleep ∧
      (run (env_ex (const_stream 0xffffffff)) 0x1000 1
        (drain_state_ex (env_ex (const_stream 0xffffffff)) 0)).retry
        = (drain_state_ex (env_ex (const_stream 0xffffffff)) 0).retry ∧
      (run (env_ex (const_stream 0xffffffff)) 0x1000 1
        (drain_state_ex (env_ex (const_stream 0xffffffff)) 0)).log
        = (drain_state_ex (env_ex (const_stream 0xffffffff)) 0).log
          ++ [Access.inl (u32 (0x1000 + MPT_REG_REP_Q)) 0xffffffff] ∧
      (run (env_ex (const_stream 0xffffffff)) 0x1000 2
        (drain_state_ex (env_ex (const_stream 0xffffffff)) 0)).log
        = (run (env_ex (const_stream 0xffffffff)) 0x1000 1
            (drain_state_ex (env_ex (const_stream 0xffffffff)) 0)).log ∧
      (run (env_ex (const_stream 0xffffffff)) 0x1000 3
        (drain_state_ex (env_ex (const_stream 0xffffffff)) 0)).log
        = (drain_state_ex (env_ex (const_stream 0xffffffff)) 0).log
          ++ [Access.inl (u32 (0x1000 + MPT_REG_REP_Q)) 0xffffffff,
            Access.inl (u32 (0x1000 + MPT_REG_ISTATUS))
              (next_istatus (env_ex (const_stream 0xffffffff)) 0x1000
                (run (env_ex (const_stream 0xffffffff)) 0x1000 2
                  (drain_state_ex (env_ex (const_stream 0xffffffff)) 0)))]) :=
  ⟨(sentinel_replies (env_ex (const_stream MPT_CONTEXT_MAGIC)) 0x1000
      (drain_state_ex (env_ex (const_stream MPT_CONTEXT_MAGIC)) 1) rfl (by decide)).1 (by decide),
    (sentinel_replies (env_ex (const_stream 0xffffffff)) 0x1000
      (drain_state_ex (env_ex (const_stream 0xffffffff)) 0) rfl (by decide)).2 (by decide)⟩

/-- C9: for a command at LUN 0, whatever the port streams and the number of
steps: a result DISK_RET_SUCCESS means the last reply-queue value read was
0xaaaa5555; a result DISK_RET_EBADTRACK means exactly two aliased reply-queue
values were read and the request address was written to the request queue
exactly twice; the result is never DISK_RET_ENOTREADY; and a result, if there is
one, is DISK_RET_SUCCESS or DISK_RET_EBADTRACK. -/
theorem return_codes (E : Env) (cdb_is_read : (Nat → Nat) → Nat → Bool) (n : Nat)
    (llun : mpt_lun_s) (op : disk_op_s) (cdbcmd : Nat → Nat) (target blocksize : Nat)
    (hal : E.reply_msg % 8 = 0) :
    ((mpt_scsi_cmd E cdb_is_read n llun op cdbcmd target 0 blocksize).result
        = some DiskRet.DISK_RET_SUCCESS →
      (reads_of (u32 (llun.iobase + MPT_REG_REP_Q))
        (mpt_scsi_cmd E cdb_is_read n llun op cdbcmd target 0 blocksize).log).getLast?
        = some MPT_CONTEXT_MAGIC) ∧
    ((mpt_scsi_cmd E cdb_is_read n llun op cdbcmd target 0 blocksize).result
        = some DiskRet.DISK_RET_EBADTRACK →
      aliased_count E.reply_msg (reads_of (u32 (llun.iobase + MPT_REG_REP_Q))
        (mpt_scsi_cmd E cdb_is_read n llun op cdbcmd target 0 blocksize).log) = 2 ∧
      writes_to (u32 (llun.iobase + MPT_REG_REQ_Q))
        (mpt_scsi_cmd E cdb_is_read n llun op cdbcmd target 0 blocksize).log
        = [u32 E.req_fl, u32 E.req_fl]) ∧
    (mpt_scsi_cmd E cdb_is_read n llun op cdbcmd target 0 blocksize).result
      ≠ some DiskRet.DISK_RET_ENOTREADY ∧
    ((mpt_scsi_cmd E cdb_is_read n llun op cdbcmd target 0 blocksize).result = none ∨
      (mpt_scsi_cmd E cdb_is_read n llun op cdbcmd target 0 blocksize).result
        = some DiskRet.DISK_RET_SUCCESS ∨
      (mpt_scsi_cmd E cdb_is_read n llun op cdbcmd target 0 blocksize).result
        = some DiskRet.DISK_RET_EBADTRACK) := by
  have hinv := loop_inv_run E llun.iobase hal n _
    (loop_inv_entry E llun.iobase cdb_is_read op cdbcmd target blocksize)
  unfold mpt_scsi_cmd
  generalize run E llun.iobase n
    (mpt_scsi_cmd_entry E cdb_is_read op cdbcmd target 0 blocksize) = t at hinv ⊢
  obtain ⟨_, hw, ha, hb, hs, hn⟩ := hinv
  cases hpc : t.pc with
  | ret c =>
    cases c with
    | DISK_RET_SUCCESS =>
      refine ⟨fun _ => hs hpc, ?_, ?_, ?_⟩ <;> simp [State.result, hpc]
    | DISK_RET_EBADTRACK =>
      have hr := hb hpc
      rw [hpc, hr] at hw ha
      refine ⟨?_, fun _ => ⟨by simpa using ha, by simpa [List.replicate] using hw⟩, ?_, ?_⟩ <;>
        simp [State.result, hpc]
    | DISK_RET_ENOTREADY => exact absurd hpc hn
  | try_again => simp [State.result, hpc]
  | poll => simp [State.result, hpc]
  | drain => simp [State.result, hpc]
  | sleep => simp [State.result, hpc]

/-- Witness of C9: the run that ends with the bad-track error after the replies
0x7b520 and 0x80000000. -/
theorem return_codes_witness :
    ((mpt_scsi_cmd (env_ex (two_reply_stream 0x7b520 0x80000000)) cdb_is_read_ex 10 llun_ex
          op_ex cdb_read10 2 0 512).result = some DiskRet.DISK_RET_SUCCESS →
      (reads_of (u32 (llun_ex.iobase + MPT_REG_REP_Q))
        (mpt_scsi_cmd (env_ex (two_reply_stream 0x7b520 0x80000000)) cdb_is_read_ex 10 llun_ex
          op_ex cdb_read10 2 0 512).log).getLast? = some MPT_CONTEXT_MAGIC) ∧
    ((mpt_scsi_cmd (env_ex (two_reply_stream 0x7b520 0x80000000)) cdb_is_read_ex 10 llun_ex
          op_ex cdb_read10 2 0 512).result = some DiskRet.DISK_RET_EBADTRACK →
      aliased_count (env_ex (two_reply_stream 0x7b520 0x80000000)).reply_msg
        (reads_of (u32 (llun_ex.iobase + MPT_REG_REP_Q))
          (mpt_scsi_cmd (env_ex (two_reply_stream 0x7b520 0x80000000)) cdb_is_read_ex 10 llun_ex
            op_ex cdb_read10 2 0 512).log) = 2 ∧
      writes_to (u32 (llun_ex.iobase + MPT_REG_REQ_Q))
        (mpt_scsi_cmd (env_ex (two_reply_stream 0x7b520 0x80000000)) cdb_is_read_ex 10 llun_ex
          op_ex cdb_read10 2 0 512).log
        = [u32 (env_ex (two_reply_stream 0x7b520 0x80000000)).req_fl,
            u32 (env_ex (two_reply_stream 0x7b520 0x80000000)).req_fl]) ∧
    (mpt_scsi_cmd (env_ex (two_reply_stream 0x7b520 0x80000000)) cdb_is_read_ex 10 llun_ex
        op_ex cdb_read10 2 0 512).result ≠ some DiskRet.DISK_RET_ENOTREADY ∧
    ((mpt_scsi_cmd (env_ex (two_reply_stream 0x7b520 0x80000000)) cdb_is_read_ex 10 llun_ex
        op_ex cdb_read10 2 0 512).result = none ∨
      (mpt_scsi_cmd (env_ex (two_reply_stream 0x7b520 0x80000000)) cdb_is_read_ex 10 llun_ex
        op_ex cdb_read10 2 0 512).result = some DiskRet.DISK_RET_SUCCESS ∨
      (mpt_scsi_cmd (env_ex (two_reply_stream 0x7b520 0x80000000)) cdb_is_read_ex 10 llun_ex
        op_ex cdb_read10 2 0 512).result = some DiskRet.DISK_RET_EBADTRACK) :=
  return_codes (env_ex (two_reply_stream 0x7b520 0x80000000)) cdb_is_read_ex 10 llun_ex op_ex
    cdb_read10 2 512 (by decide)

/-! ## Controller bring-up: facts and claims -/

theorem foldl_outl_log (f : Nat → Nat) (port : Nat) (n : Nat) (log : List Access) :
    (List.range n).foldl (fun l i => outl_log (f i) port l) log
      = log ++ (List.range n).map (fun i => Access.outl (u32 (f i)) port) := by
  induction n with
  | zero => simp
  | succ n ih =>
    rw [List.range_succ, List.foldl_append, ih]
    simp [outl_log]

theorem reads_of_map_outl (port q : Nat) (l : List Nat) :
    reads_of port (l.map (fun w => Access.outl w q)) = [] := by
  induction l with
  | nil => rfl
  | cons a l ih => simp [reads_of]

theorem reads_of_map_inl (port : Nat) (g : Nat → Nat) (l : List Nat) :
    reads_of port (l.map (fun k => Access.inl port (g k))) = l.map g := by
  induction l with
  | nil => rfl
  | cons a l ih =>
    have h : reads_of port (Access.inl port (g a) :: l.map (fun k => Access.inl port (g k)))
        = g a :: reads_of port (l.map (fun k => Access.inl port (g k))) := by
      simp [reads_of]
    rw [List.map_cons, h, ih, List.map_cons]

theorem foldl_inl_log (vals : Nat → Nat → Nat) (port : Nat) (n : Nat) (log : List Access)
    (acc : List Nat) (h : reads_of port log = []) :
    (List.range n).foldl
        (fun (st : List Access × List Nat) _ =>
          ((inl_log vals port st.1).2, st.2 ++ [(inl_log vals port st.1).1 % 2 ^ 16]))
        (log, acc)
      = (log ++ (List.range n).map (fun k => Access.inl port (u32 (vals port k))),
          acc ++ (List.range n).map (fun k => u32 (vals port k) % 2 ^ 16)) := by
  induction n with
  | zero => simp
  | succ n ih =>
    rw [List.range_succ, List.foldl_append, ih]
    have hc : (reads_of port
        (log ++ (List.range n).map (fun k => Access.inl port (u32 (vals port k))))).length = n := by
      rw [reads_of_append, h, reads_of_map_inl port (fun k => u32 (vals port k))]
      simp
    simp [inl_log, hc]

theorem words_eq : MptIOCInitRequest_words = [0x02000002, 0x00010800, 0, 128, 0, 0] := by
  decide

theorem handshake_eq (vals : Nat → Nat → Nat) (reply_msg iobase : Nat) :
    init_mpt_scsi_handshake vals reply_msg iobase =
      ([Access.outl 0x40000000 (u32 (iobase + MPT_REG_DOORBELL)),
          Access.outl 0x09 (u32 (iobase + MPT_REG_IMASK)),
          Access.outl 0 (u32 (iobase + MPT_REG_ISTATUS)),
          Access.outl 0x42060000 (u32 (iobase + MPT_REG_DOORBELL))]
        ++ MptIOCInitRequest_words.map (fun w => Access.outl w (u32 (iobase + MPT_REG_DOORBELL)))
        ++ (List.range 10).map (fun k => Access.inl (u32 (iobase + MPT_REG_DOORBELL))
              (u32 (vals (u32 (iobase + MPT_REG_DOORBELL)) k)))
        ++ [Access.outl 0 (u32 (iobase + MPT_REG_ISTATUS)),
            Access.outl (u32 reply_msg) (u32 (iobase + MPT_REG_REP_Q))],
        (List.range 10).map (fun k => u32 (vals (u32 (iobase + MPT_REG_DOORBELL)) k) % 2 ^ 16)) := by
  have h1 : u32 (MPT_DOORBELL_REG_FUNC MPT_DOORBELL_MSG_RESET 0) = 0x40000000 := by decide
  have h2 : u32 (MPT_IMASK_DOORBELL ||| MPT_IMASK_REPLY) = 0x09 := by decide
  have h3 : u32 (MPT_DOORBELL_REG_FUNC MPT_DOORBELL_HANDSHAKE (sizeof_MptIOCInitRequest / 4))
      = 0x42060000 := by decide
  have h4 : u32 0 = 0 := by decide
  have h5 : sizeof_MptIOCInitReply / 2 = 10 := by decide
  have hw : (List.range (sizeof_MptIOCInitRequest / 4)).map
      (fun i => Access.outl (u32 (read_u32 (MptIOCInitRequest_bytes MptIOCInitRequest) i))
        (u32 (iobase + MPT_REG_DOORBELL)))
      = MptIOCInitRequest_words.map (fun w => Access.outl w (u32 (iobase + MPT_REG_DOORBELL))) := by
    have h6 : List.range (sizeof_MptIOCInitRequest / 4) = [0, 1, 2, 3, 4, 5] := by decide
    rw [words_eq, h6]
    have e0 : u32 (read_u32 (MptIOCInitRequest_bytes MptIOCInitRequest) 0) = 0x02000002 := by decide
    have e1 : u32 (read_u32 (MptIOCInitRequest_bytes MptIOCInitRequest) 1) = 0x00010800 := by decide
    have e2 : u32 (read_u32 (MptIOCInitRequest_bytes MptIOCInitRequest) 2) = 0 := by decide
    have e3 : u32 (read_u32 (MptIOCInitRequest_bytes MptIOCInitRequest) 3) = 128 := by decide
    have e4 : u32 (read_u32 (MptIOCInitRequest_bytes MptIOCInitRequest) 4) = 0 := by decide
    have e5 : u32 (read_u32 (MptIOCInitRequest_bytes MptIOCInitRequest) 5) = 0 := by decide
    simp only [List.map, e0, e1, e2, e3, e4, e5]
  unfold init_mpt_scsi_handshake
  simp only []
  rw [foldl_outl_log, hw, h5, foldl_inl_log]
  · simp only [outl_log, h1, h2, h3, h4, List.nil_append, List.append_assoc, List.cons_append]
  · simp only [outl_log, reads_of_append, reads_of_map_outl, List.nil_append]
    simp [reads_of]

/-- C11: for every I/O base and every doorbell read stream, the port accesses of
the handshake of `init_mpt_scsi` are, in order: the reset command 0x40000000
to Doorbell (0x00); 0x09 to Interrupt-Mask (0x34); 0 to Interrupt-Status
(0x30); the handshake command ((0x42 & 0xff) << 24) | ((n & 0xff) << 16) to
Doorbell, n being the size of the IOC-Init request in 32-bit words; the n words
of the static request to Doorbell, in structure order; the reads of the reply
from Doorbell; 0 to Interrupt-Status; the address of `reply_msg` to
Reply-Queue (0x44).  The count in bits 23..16 of the handshake command is the
number of request words written. -/
theorem handshake_order (vals : Nat → Nat → Nat) (reply_msg iobase : Nat) :
    (init_mpt_scsi_handshake vals reply_msg iobase).1 =
      [Access.outl 0x40000000 (u32 (iobase + 0x00)),
        Access.outl 0x09 (u32 (iobase + 0x34)),
        Access.outl 0 (u32 (iobase + 0x30)),
        Access.outl (((0x42 &&& 0xff) <<< 24) ||| (((sizeof_MptIOCInitRequest / 4) &&& 0xff) <<< 16))
          (u32 (iobase + 0x00))]
      ++ MptIOCInitRequest_words.map (fun w => Access.outl w (u32 (iobase + 0x00)))
      ++ (List.range (sizeof_MptIOCInitReply / 2)).map
          (fun k => Access.inl (u32 (iobase + 0x00)) (u32 (vals (u32 (iobase + 0x00)) k)))
      ++ [Access.outl 0 (u32 (iobase + 0x30)), Access.outl (u32 reply_msg) (u32 (iobase + 0x44))] ∧
    MptIOCInitRequest_words.length = sizeof_MptIOCInitRequest / 4 ∧
    ((((0x42 &&& 0xff) <<< 24) ||| (((sizeof_MptIOCInitRequest / 4) &&& 0xff) <<< 16)) / 2 ^ 16)
        % 2 ^ 8 = MptIOCInitRequest_words.length := by
  refine ⟨?_, by decide, by decide⟩
  rw [handshake_eq]
  have h3 : ((0x42 &&& 0xff) <<< 24) ||| (((sizeof_MptIOCInitRequest / 4) &&& 0xff) <<< 16)
      = 0x42060000 := by decide
  have h5 : sizeof_MptIOCInitReply / 2 = 10 := by decide
  rw [h3, h5]
  rfl

/-- C12, counterexample: on a controller at 0x1000 the writes to Doorbell are
the reset command, the handshake command 0x42060000, whose size field is 6,
and six request words; the request is not 7 words long. -/
theorem ioc_init_words_counterexample :
    writes_to 0x1000 (init_mpt_scsi_handshake (const_stream 0) 0xf6a40 0x1000).1
      = [0x40000000, 0x42060000, 0x02000002, 0x00010800, 0, 128, 0, 0] ∧
    (0x42060000 / 2 ^ 16) % 2 ^ 8 = 6 ∧
    sizeof_MptIOCInitRequest / 4 ≠ 7 ∧
    MptIOCInitRequest_words.length ≠ 7 := by
  refine ⟨?_, by decide, by decide, by decide⟩
  rw [handshake_eq, words_eq]
  decide

/-- C12, amended: the IOC-Init request sent by the handshake of
`init_mpt_scsi` is 6 words long: the handshake command announces a size of 6
words, exactly 6 request words are written to Doorbell after it, no read
precedes them and the first read of the reply follows them. -/
theorem ioc_init_six_words (vals : Nat → Nat → Nat) (reply_msg iobase : Nat) :
    sizeof_MptIOCInitRequest / 4 = 6 ∧
    MptIOCInitRequest_words.length = 6 ∧
    (init_mpt_scsi_handshake vals reply_msg iobase).1[3]?
      = some (Access.outl 0x42060000 (u32 (iobase + MPT_REG_DOORBELL))) ∧
    (0x42060000 / 2 ^ 16) % 2 ^ 8 = 6 ∧
    ((init_mpt_scsi_handshake vals reply_msg iobase).1.drop 4).take 6
      = MptIOCInitRequest_words.map (fun w => Access.outl w (u32 (iobase + MPT_REG_DOORBELL))) ∧
    (∀ p, reads_of p ((init_mpt_scsi_handshake vals reply_msg iobase).1.take 10) = []) ∧
    (init_mpt_scsi_handshake vals reply_msg iobase).1[10]?
      = some (Access.inl (u32 (iobase + MPT_REG_DOORBELL))
          (u32 (vals (u32 (iobase + MPT_REG_DOORBELL)) 0))) := by
  have h10 : List.range 10 = [0, 1, 2, 3, 4, 5, 6, 7, 8, 9] := by decide
  refine ⟨by decide, by decide, ?_, by decide, ?_, ?_, ?_⟩
  · rw [handshake_eq]; rfl
  · rw [handshake_eq, words_eq]; rfl
  · intro p; rw [handshake_eq, words_eq]; simp [reads_of]
  · rw [handshake_eq, words_eq, h10]; rfl

/-- C14: the ReplyFrameSize field of the static IOC-Init request is the byte
size of `reply_msg`, 128; it lies at byte offset 12 of the request, and the
fourth request word written to Doorbell by the handshake carries it in its low
sixteen bits. -/
theorem reply_frame_size (vals : Nat → Nat → Nat) (reply_msg iobase : Nat) :
    MptIOCInitRequest.ReplyFrameSize = sizeof_reply_msg ∧
    sizeof_reply_msg = 128 ∧
    ((MptIOCInitRequest_bytes MptIOCInitRequest).take 12).length = 12 ∧
    ((MptIOCInitRequest_bytes MptIOCInitRequest).drop 12).take 2
      = le16 MptIOCInitRequest.ReplyFrameSize ∧
    (MptIOCInitRequest_bytes MptIOCInitRequest).getD 12 0
      + 256 * (MptIOCInitRequest_bytes MptIOCInitRequest).getD 13 0 = 128 ∧
    MptIOCInitRequest_words[3]? = some 128 ∧
    (init_mpt_scsi_handshake vals reply_msg iobase).1[7]?
      = some (Access.outl 128 (u32 (iobase + MPT_REG_DOORBELL))) ∧
    128 % 2 ^ 16 = sizeof_reply_msg := by
  refine ⟨rfl, rfl, by decide, by decide, by decide, by decide, ?_, by decide⟩
  rw [handshake_eq, words_eq]; rfl

theorem scan_eq (ext : Nat → add_lun_ext) (pci : pci_device) (iobase : Nat) :
    init_mpt_scsi_scan ext pci iobase =
      (List.range 7).map (fun i =>
        ({ iobase := iobase, target := i, lun := 0
           result := mpt_scsi_add_lun (ext i) pci iobase i 0 } : add_lun_call)) := by
  have h7 : List.range 7 = [0, 1, 2, 3, 4, 5, 6] := by decide
  simp [init_mpt_scsi_scan, h7, mpt_scsi_scan_target, u8]

theorem registered_length_le (calls : List add_lun_call) :
    (registered calls).length ≤ calls.length := by
  unfold registered
  exact List.length_filterMap_le _ _

/-- C13: whatever the external calls return in the seven iterations, the scan of
`init_mpt_scsi` calls `mpt_scsi_add_lun` for the targets 0,1,2,3,4,5,6 in that
order, each with LUN 0 and the controller's I/O base, and for no other; at most
7 records stay registered; what the call for target `i` leaves behind depends
only on what the external calls return in iteration `i`, so that two scans
whose external results agree after target `k` agree on every later target. -/
theorem scan_targets (ext ext' : Nat → add_lun_ext) (pci : pci_device) (iobase k : Nat) :
    (init_mpt_scsi_scan ext pci iobase).map (fun c => (c.target, c.lun, c.iobase))
      = [(0, 0, iobase), (1, 0, iobase), (2, 0, iobase), (3, 0, iobase), (4, 0, iobase),
          (5, 0, iobase), (6, 0, iobase)] ∧
    (registered (init_mpt_scsi_scan ext pci iobase)).length ≤ 7 ∧
    (∀ i, i < 7 →
      (init_mpt_scsi_scan ext pci iobase)[i]?
        = some { iobase := iobase, target := i, lun := 0
                 result := mpt_scsi_add_lun (ext i) pci iobase i 0 }) ∧
    ((∀ j, k < j → ext j = ext' j) →
      ∀ j, k < j →
        (init_mpt_scsi_scan ext pci iobase)[j]? = (init_mpt_scsi_scan ext' pci iobase)[j]?) := by
  have h7 : List.range 7 = [0, 1, 2, 3, 4, 5, 6] := by decide
  refine ⟨?_, ?_, ?_, ?_⟩
  · rw [scan_eq, h7]; rfl
  · have h := registered_length_le (init_mpt_scsi_scan ext pci iobase)
    rw [scan_eq] at h ⊢
    simpa using h
  · intro i hi
    rw [scan_eq, h7]
    interval_cases i <;> rfl
  · intro hagree j hj
    rw [scan_eq, scan_eq]
    by_cases hj7 : j < 7
    · rw [h7]
      interval_cases j <;> simp [hagree _ hj]
    · simp [List.getElem?_eq_none, Nat.le_of_not_lt hj7]

/-- Witness of C13: a scan in which the allocation fails at target 2 and the
registration at target 4, against a scan in which all succeeds; the two agree
on the targets 5 and 6. -/
theorem scan_targets_witness :
    (init_mpt_scsi_scan ext_two_fail pci_ex 0x1000)[5]?
        = (init_mpt_scsi_scan ext_all_ok pci_ex 0x1000)[5]? ∧
    (init_mpt_scsi_scan ext_two_fail pci_ex 0x1000)[6]?
        = (init_mpt_scsi_scan ext_all_ok pci_ex 0x1000)[6]? :=
  have hagree : ∀ j, 4 < j → ext_two_fail j = ext_all_ok j := by
    intro j hj
    have h2 : j ≠ 2 := by omega
    have h4 : j ≠ 4 := by omega
    simp [ext_two_fail, ext_all_ok, h2, h4]
  ⟨(scan_targets ext_two_fail ext_all_ok pci_ex 0x1000 4).2.2.2 hagree 5 (by decide),
    (scan_targets ext_two_fail ext_all_ok pci_ex 0x1000 4).2.2.2 hagree 6 (by decide)⟩

theorem fmt_x_lt16 (n : Nat) (h : n < 16) : fmt_x n = [Nat.digitChar n] := by
  have h1 : n / 16 = 0 := Nat.div_eq_of_lt h
  have h2 : n % 16 = n := Nat.mod_eq_of_lt h
  simp [fmt_x, Nat.toDigits, Nat.toDigitsCore, h1, h2]

theorem fmt_x_lt256 (n : Nat) (h16 : 16 ≤ n) (h : n < 256) :
    fmt_x n = [Nat.digitChar (n / 16), Nat.digitChar (n % 16)] := by
  obtain ⟨m, rfl⟩ : ∃ m, n = m + 1 := ⟨n - 1, by omega⟩
  have h1 : (m + 1) / 16 ≠ 0 := by omega
  have h2 : (m + 1) / 16 / 16 = 0 := by omega
  have h3 : (m + 1) / 16 % 16 = (m + 1) / 16 := by omega
  simp [fmt_x, Nat.toDigits, Nat.toDigitsCore, h1, h2, h3]

theorem fmt_02x_length (n : Nat) (h : n < 256) : (fmt_02x n).length = 2 := by
  by_cases h16 : n < 16
  · simp [fmt_02x, fmt_x_lt16 n h16]
  · simp [fmt_02x, fmt_x_lt256 n (by omega) h]

theorem fmt_d_lt10 (n : Nat) (h : n < 10) : fmt_d n = [Nat.digitChar n] := by
  have h1 : n / 10 = 0 := Nat.div_eq_of_lt h
  have h2 : n % 10 = n := Nat.mod_eq_of_lt h
  simp [fmt_d, Nat.toDigits, Nat.toDigitsCore, h1, h2]

theorem mpt_name_text_length (pci : pci_device) (hbus : pci.bus < 256) (hdev : pci.dev < 32)
    (hfn : pci.fn < 8) (t : Nat) (ht : t < 7) : (mpt_name_text pci t 0).length = 15 := by
  simp [mpt_name_text, fmt_02x_length pci.bus hbus, fmt_02x_length pci.dev (by omega),
    fmt_x_lt16 pci.fn (by omega), fmt_d_lt10 t (by omega), fmt_d_lt10 0 (by omega)]

theorem mpt_name_text_ne (pci : pci_device) (t t' : Nat) (ht : t < 7) (ht' : t' < 7)
    (hne : t ≠ t') : mpt_name_text pci t 0 ≠ mpt_name_text pci t' 0 := by
  simp only [mpt_name_text, fmt_d_lt10 t (by omega), fmt_d_lt10 t' (by omega), List.append_assoc]
  intro h
  have h' := List.append_cancel_left (List.append_cancel_left (List.append_cancel_left
    (List.append_cancel_left (List.append_cancel_left (List.append_cancel_left
      (List.append_cancel_left h))))))
  simp only [List.singleton_append, List.cons.injEq] at h'
  have hd := h'.1
  interval_cases t <;> interval_cases t' <;> first | exact hne rfl | exact absurd hd (by decide)

/-- C15: for a PCI device with bus below 256, device below 32 and function
below 8, and the targets 0..6 at LUN 0: the 16-byte limit of `znprintf` cuts
nothing off the text of `"mpt %02x:%02x.%x %d:%d"`, which is 15 characters
long, so each name holds the bus, device, function, target and LUN numbers in
full; the names of two different targets differ; and this is the name that
`mpt_scsi_add_lun` generates. -/
theorem lun_names (pci : pci_device) (hbus : pci.bus < 256) (hdev : pci.dev < 32)
    (hfn : pci.fn < 8) :
    (∀ t, t < 7 →
      znprintf 16 (mpt_name_text pci t 0) = mpt_name_text pci t 0 ∧
      (mpt_name_text pci t 0).length = 15) ∧
    (∀ t t', t < 7 → t' < 7 → t ≠ t' →
      znprintf 16 (mpt_name_text pci t 0) ≠ znprintf 16 (mpt_name_text pci t' 0)) ∧
    (∀ (ext : add_lun_ext) (iobase t : Nat), t < 7 → ext.malloc_ok = true →
      (mpt_scsi_add_lun ext pci iobase t 0).name = some (mpt_name_text pci t 0)) := by
  have hz : ∀ t, t < 7 → znprintf 16 (mpt_name_text pci t 0) = mpt_name_text pci t 0 := by
    intro t ht
    unfold znprintf
    exact List.take_of_length_le (by rw [mpt_name_text_length pci hbus hdev hfn t ht])
  refine ⟨fun t ht => ⟨hz t ht, mpt_name_text_length pci hbus hdev hfn t ht⟩, ?_, ?_⟩
  · intro t t' ht ht' hne
    rw [hz t ht, hz t' ht']
    exact mpt_name_text_ne pci t t' ht ht' hne
  · intro ext iobase t ht hok
    have hu : u8 t = t := Nat.mod_eq_of_lt (by omega)
    have hu0 : u8 0 = 0 := rfl
    unfold mpt_scsi_add_lun
    simp only [hok, hu, hu0, hz t ht]
    split_ifs <;> simp_all

/-- Witness of C15: the device 00:03.0, whose names for the targets 3 and 4 are
"mpt 00:03.0 3:0" and "mpt 00:03.0 4:0". -/
theorem lun_names_witness :
    (znprintf 16 (mpt_name_text pci_ex 3 0) = mpt_name_text pci_ex 3 0 ∧
      (mpt_name_text pci_ex 3 0).length = 15) ∧
    znprintf 16 (mpt_name_text pci_ex 3 0) ≠ znprintf 16 (mpt_name_text pci_ex 4 0) ∧
    (mpt_scsi_add_lun (ext_all_ok 3) pci_ex 0x1000 3 0).name = some (mpt_name_text pci_ex 3 0) :=
  have h := lun_names pci_ex (by decide) (by decide) (by decide)
  ⟨h.1 3 (by decide), h.2.1 3 4 (by decide) (by decide) (by decide),
    h.2.2 (ext_all_ok 3) 0x1000 3 (by decide) rfl⟩

/-! ## The polling loop: further facts and claims -/

theorem no_reply_inv (E : Env) (iobase : Nat) (s0 : State) (hpc0 : s0.pc = Pc.try_again)
    (hl0 : s0.log = [])
    (hnever : ∀ k, istatus_at E iobase k &&& MPT_IMASK_REPLY = 0) (m : Nat) :
    ((run E iobase (m + 1) s0).pc = Pc.poll ∧ m % 2 = 0 ∨
      (run E iobase (m + 1) s0).pc = Pc.sleep ∧ m % 2 = 1) ∧
    writes_to (u32 (iobase + MPT_REG_REQ_Q)) (run E iobase (m + 1) s0).log = [u32 E.req_fl] ∧
    reads_of (u32 (iobase + MPT_REG_REP_Q)) (run E iobase (m + 1) s0).log = [] ∧
    (reads_of (u32 (iobase + MPT_REG_ISTATUS)) (run E iobase (m + 1) s0).log).length
      = (m + 1) / 2 := by
  induction m with
  | zero =>
    have h1 : run E iobase 1 s0 = step E iobase s0 := rfl
    rw [h1, step_try_again E iobase s0 hpc0, hl0]
    simp [writes_to, reads_of]
  | succ m ih =>
    obtain ⟨hpc, hw, hq, hi⟩ := ih
    rw [run_succ_last]
    rcases hpc with ⟨hpc, hm⟩ | ⟨hpc, hm⟩
    · have hb : ¬ (next_istatus E iobase (run E iobase (m + 1) s0) &&& MPT_IMASK_REPLY ≠ 0) := by
        rw [next_istatus_eq]; simp [hnever]
      rw [step_poll E iobase _ hpc]
      refine ⟨Or.inr ⟨by simp [hb], by omega⟩, ?_, ?_, ?_⟩
      · simp [writes_to_append, writes_to_inl, hw]
      · simp [reads_of_append, reads_of_inl, port_istatus_ne_rep_q, hq]
      · simp [reads_of_append, reads_of_inl, hi]; omega
    · rw [step_sleep E iobase _ hpc]
      refine ⟨Or.inl ⟨rfl, by omega⟩, hw, hq, ?_⟩
      simp only [hi]; omega

/-- C16: for a command at LUN 0 on a controller whose interrupt status never
shows a reply, `mpt_scsi_cmd` has no result after any number of steps: after
`m + 1` steps it has read interrupt status `(m + 1) / 2` times (so `n` times
after `2 * n` steps, for every `n`), has returned nothing, has written the
request address to the request queue exactly once and has never read the reply
queue. -/
theorem no_reply_never_returns (E : Env) (cdb_is_read : (Nat → Nat) → Nat → Bool)
    (llun : mpt_lun_s) (op : disk_op_s) (cdbcmd : Nat → Nat) (target blocksize : Nat)
    (hnever : ∀ k, istatus_at E llun.iobase k &&& MPT_IMASK_REPLY = 0) (m : Nat) :
    (mpt_scsi_cmd E cdb_is_read (m + 1) llun op cdbcmd target 0 blocksize).result = none ∧
    writes_to (u32 (llun.iobase + MPT_REG_REQ_Q))
        (mpt_scsi_cmd E cdb_is_read (m + 1) llun op cdbcmd target 0 blocksize).log
      = [u32 E.req_fl] ∧
    reads_of (u32 (llun.iobase + MPT_REG_REP_Q))
        (mpt_scsi_cmd E cdb_is_read (m + 1) llun op cdbcmd target 0 blocksize).log = [] ∧
    (reads_of (u32 (llun.iobase + MPT_REG_ISTATUS))
        (mpt_scsi_cmd E cdb_is_read (m + 1) llun op cdbcmd target 0 blocksize).log).length
      = (m + 1) / 2 := by
  obtain ⟨hpc0, _, hl0⟩ := entry_lun0 E cdb_is_read op cdbcmd target blocksize
  obtain ⟨hpc, hw, hq, hi⟩ := no_reply_inv E llun.iobase _ hpc0 hl0 hnever m
  unfold mpt_scsi_cmd
  refine ⟨?_, hw, hq, hi⟩
  rcases hpc with ⟨hpc, _⟩ | ⟨hpc, _⟩ <;> simp [State.result, hpc]

/-- Witness of C16: interrupt status always reads 0; after 2 * 5 steps it has
been read 5 times. -/
theorem no_reply_never_returns_witness :
    (mpt_scsi_cmd (env_ex (const_stream 0)) cdb_is_read_ex (9 + 1) llun_ex op_ex cdb_read10 2 0
        512).result = none ∧
    writes_to (u32 (llun_ex.iobase + MPT_REG_REQ_Q))
        (mpt_scsi_cmd (env_ex (const_stream 0)) cdb_is_read_ex (9 + 1) llun_ex op_ex cdb_read10 2 0
          512).log = [u32 (env_ex (const_stream 0)).req_fl] ∧
    reads_of (u32 (llun_ex.iobase + MPT_REG_REP_Q))
        (mpt_scsi_cmd (env_ex (const_stream 0)) cdb_is_read_ex (9 + 1) llun_ex op_ex cdb_read10 2 0
          512).log = [] ∧
    (reads_of (u32 (llun_ex.iobase + MPT_REG_ISTATUS))
        (mpt_scsi_cmd (env_ex (const_stream 0)) cdb_is_read_ex (9 + 1) llun_ex op_ex cdb_read10 2 0
          512).log).length = (9 + 1) / 2 :=
  no_reply_never_returns (env_ex (const_stream 0)) cdb_is_read_ex llun_ex op_ex cdb_read10 2 512
    (by intro k; show u32 0 &&& MPT_IMASK_REPLY = 0; decide) 9

theorem submit_inv_step (E : Env) (iobase : Nat) (s : State)
    (h : s.retry ≤ 1 ∧
      writes_to (u32 (iobase + MPT_REG_REQ_Q)) s.log
        = List.replicate (if s.pc = Pc.try_again then s.retry else s.retry + 1) (u32 E.req_fl) ∧
      (s.pc = Pc.try_again → s.retry = 1)) :
    (step E iobase s).retry ≤ 1 ∧
      writes_to (u32 (iobase + MPT_REG_REQ_Q)) (step E iobase s).log
        = List.replicate (if (step E iobase s).pc = Pc.try_again then (step E iobase s).retry
            else (step E iobase s).retry + 1) (u32 E.req_fl) ∧
      ((step E iobase s).pc = Pc.try_again → (step E iobase s).retry = 1) := by
  obtain ⟨hr, hw, ht⟩ := h
  cases hpc : s.pc with
  | try_again =>
    rw [step_try_again E iobase s hpc]
    rw [hpc] at hw
    simp only [if_true] at hw
    refine ⟨hr, ?_, ?_⟩
    · simp [writes_to_append, writes_to_outl, hw, List.replicate_succ']
    · intro hc; cases hc
  | poll =>
    rw [step_poll E iobase s hpc]
    rw [hpc] at hw
    refine ⟨hr, ?_, ?_⟩
    · by_cases hbit : next_istatus E iobase s &&& MPT_IMASK_REPLY ≠ 0 <;>
        simpa [hbit, writes_to_append, writes_to_inl] using hw
    · by_cases hbit : next_istatus E iobase s &&& MPT_IMASK_REPLY ≠ 0 <;> simp [hbit]
  | sleep =>
    rw [step_sleep E iobase s hpc]
    rw [hpc] at hw
    exact ⟨hr, by simpa using hw, by intro hc; cases hc⟩
  | ret c =>
    rw [step_ret E iobase s c hpc]
    exact ⟨hr, hw, ht⟩
  | drain =>
    rw [hpc] at hw
    simp only [if_false, reduceCtorEq] at hw
    rcases reply_class_cases E.reply_msg (next_reply E iobase s) with
      ⟨hc, _⟩ | ⟨hc, _⟩ | ⟨hc, _⟩ | ⟨hc, _⟩
    · rw [step_drain_completion E iobase s hpc hc]
      exact ⟨hr, by simpa [writes_to_append, writes_to_inl] using hw, by intro hc'; cases hc'⟩
    · rw [step_drain_aliased E iobase s hpc hc]
      by_cases h0 : s.retry = 0
      · exact ⟨by simp [h0], by simpa [h0, writes_to_append, writes_to_inl] using hw,
          by simp [h0]⟩
      · have h1 : s.retry = 1 := by omega
        exact ⟨by simp [h1], by simpa [h1, writes_to_append, writes_to_inl] using hw,
          by simp [h1]⟩
    · rw [step_drain_skipped E iobase s hpc hc]
      exact ⟨hr, by simpa [writes_to_append, writes_to_inl] using hw, by intro hc'; cases hc'⟩
    · rw [step_drain_drained E iobase s hpc hc]
      exact ⟨hr, by simpa [writes_to_append, writes_to_inl] using hw, by intro hc'; cases hc'⟩

theorem submit_inv_run (E : Env) (iobase : Nat) (s0 : State) (hpc0 : s0.pc = Pc.try_again)
    (hr0 : s0.retry = 0) (hl0 : s0.log = []) (m : Nat) :
    (run E iobase (m + 1) s0).retry ≤ 1 ∧
      writes_to (u32 (iobase + MPT_REG_REQ_Q)) (run E iobase (m + 1) s0).log
        = List.replicate (if (run E iobase (m + 1) s0).pc = Pc.try_again
            then (run E iobase (m + 1) s0).retry
            else (run E iobase (m + 1) s0).retry + 1) (u32 E.req_fl) ∧
      ((run E iobase (m + 1) s0).pc = Pc.try_again → (run E iobase (m + 1) s0).retry = 1) := by
  induction m with
  | zero =>
    have h1 : run E iobase 1 s0 = step E iobase s0 := rfl
    rw [h1, step_try_again E iobase s0 hpc0, hl0, hr0]
    simp [writes_to]
  | succ m ih =>
    rw [run_succ_last]
    exact submit_inv_step E iobase _ ih

/-- C17: for a command at LUN 0, whatever the port streams, after any number of
steps from the first one on (the first step is the submission of line 202):
the request queue has been written at least once and at most twice, every
write carries the same request address, and the request is the one built
before the first submission. -/
theorem submissions_bounded (E : Env) (cdb_is_read : (Nat → Nat) → Nat → Bool)
    (llun : mpt_lun_s) (op : disk_op_s) (cdbcmd : Nat → Nat) (target blocksize : Nat) (m : Nat) :
    1 ≤ (writes_to (u32 (llun.iobase + MPT_REG_REQ_Q))
        (mpt_scsi_cmd E cdb_is_read (m + 1) llun op cdbcmd target 0 blocksize).log).length ∧
    (writes_to (u32 (llun.iobase + MPT_REG_REQ_Q))
        (mpt_scsi_cmd E cdb_is_read (m + 1) llun op cdbcmd target 0 blocksize).log).length ≤ 2 ∧
    (∀ v, v ∈ writes_to (u32 (llun.iobase + MPT_REG_REQ_Q))
        (mpt_scsi_cmd E cdb_is_read (m + 1) llun op cdbcmd target 0 blocksize).log →
      v = u32 E.req_fl) ∧
    (mpt_scsi_cmd E cdb_is_read (m + 1) llun op cdbcmd target 0 blocksize).req
      = (mpt_scsi_cmd E cdb_is_read 0 llun op cdbcmd target 0 blocksize).req := by
  obtain ⟨hpc0, hr0, hl0⟩ := entry_lun0 E cdb_is_read op cdbcmd target blocksize
  obtain ⟨hr, hw, ht⟩ := submit_inv_run E llun.iobase _ hpc0 hr0 hl0 m
  unfold mpt_scsi_cmd
  rw [hw]
  refine ⟨?_, ?_, ?_, ?_⟩
  · rw [List.length_replicate]
    split_ifs with h
    · rw [ht h]
    · omega
  · rw [List.length_replicate]
    split_ifs with h <;> omega
  · intro v hv
    exact (List.mem_replicate.1 hv).2
  · rw [run_req, run_req]

theorem istatus_at_insert (E : Env) (iobase k v i : Nat) :
    istatus_at (insert_reply E iobase k v) iobase i = istatus_at E iobase i := by
  simp [istatus_at, insert_reply, port_istatus_ne_rep_q]

theorem reply_at_insert (E : Env) (iobase k v i : Nat) :
    reply_at (insert_reply E iobase k v) iobase i =
      if i < k then reply_at E iobase i
      else if i = k then u32 v
      else reply_at E iobase (i - 1) := by
  simp only [reply_at, insert_reply, if_true]
  split_ifs <;> rfl

theorem step_insert_agree (E : Env) (iobase k v : Nat) (s : State)
    (h : s.pc = Pc.drain → (reads_of (u32 (iobase + MPT_REG_REP_Q)) s.log).length < k) :
    step (insert_reply E iobase k v) iobase s = step E iobase s := by
  cases hpc : s.pc with
  | try_again => rw [step_try_again _ _ _ hpc, step_try_again _ _ _ hpc]; rfl
  | sleep => rw [step_sleep _ _ _ hpc, step_sleep _ _ _ hpc]
  | ret c => rw [step_ret _ _ _ c hpc, step_ret _ _ _ c hpc]
  | poll =>
    have hv : next_istatus (insert_reply E iobase k v) iobase s = next_istatus E iobase s := by
      rw [next_istatus_eq, next_istatus_eq, istatus_at_insert]
    rw [step_poll _ _ _ hpc, step_poll _ _ _ hpc, hv]
  | drain =>
    have hv : next_reply (insert_reply E iobase k v) iobase s = next_reply E iobase s := by
      rw [next_reply_eq, next_reply_eq, reply_at_insert]
      simp [h hpc]
    have hm : (insert_reply E iobase k v).reply_msg = E.reply_msg := rfl
    rcases reply_class_cases E.reply_msg (next_reply E iobase s) with
      ⟨hc, _⟩ | ⟨hc, _⟩ | ⟨hc, _⟩ | ⟨hc, _⟩
    · rw [step_drain_completion E iobase s hpc hc,
        step_drain_completion _ iobase s hpc (by rw [hm, hv]; exact hc), hv]
    · rw [step_drain_aliased E iobase s hpc hc,
        step_drain_aliased _ iobase s hpc (by rw [hm, hv]; exact hc), hv]
    · rw [step_drain_skipped E iobase s hpc hc,
        step_drain_skipped _ iobase s hpc (by rw [hm, hv]; exact hc), hv]
    · rw [step_drain_drained E iobase s hpc hc,
        step_drain_drained _ iobase s hpc (by rw [hm, hv]; exact hc), hv]

theorem step_log_append (E : Env) (iobase : Nat) (s : State) :
    ∃ l, (step E iobase s).log = s.log ++ l := by
  cases hpc : s.pc with
  | try_again => rw [step_try_again _ _ _ hpc]; exact ⟨_, rfl⟩
  | sleep => rw [step_sleep _ _ _ hpc]; exact ⟨[], by simp⟩
  | ret c => rw [step_ret _ _ _ c hpc]; exact ⟨[], by simp⟩
  | poll => rw [step_poll _ _ _ hpc]; exact ⟨_, rfl⟩
  | drain =>
    rcases reply_class_cases E.reply_msg (next_reply E iobase s) with
      ⟨hc, _⟩ | ⟨hc, _⟩ | ⟨hc, _⟩ | ⟨hc, _⟩
    · rw [step_drain_completion E iobase s hpc hc]; exact ⟨_, rfl⟩
    · rw [step_drain_aliased E iobase s hpc hc]; exact ⟨_, rfl⟩
    · rw [step_drain_skipped E iobase s hpc hc]; exact ⟨_, rfl⟩
    · rw [step_drain_drained E iobase s hpc hc]; exact ⟨_, rfl⟩

theorem run_reads_mono (E : Env) (iobase p : Nat) (n : Nat) (s : State) :
    (reads_of p s.log).length ≤ (reads_of p (run E iobase n s).log).length := by
  induction n generalizing s with
  | zero => exact Nat.le_refl _
  | succ n ih =>
    obtain ⟨l, hl⟩ := step_log_append E iobase s
    have h1 : (reads_of p s.log).length ≤ (reads_of p (step E iobase s).log).length := by
      rw [hl, reads_of_append]; simp
    exact Nat.le_trans h1 (ih (step E iobase s))

theorem step_drain_reads (E : Env) (iobase : Nat) (s : State) (hpc : s.pc = Pc.drain) :
    (reads_of (u32 (iobase + MPT_REG_REP_Q)) (step E iobase s).log).length
      = (reads_of (u32 (iobase + MPT_REG_REP_Q)) s.log).length + 1 := by
  rcases reply_class_cases E.reply_msg (next_reply E iobase s) with
    ⟨hc, _⟩ | ⟨hc, _⟩ | ⟨hc, _⟩ | ⟨hc, _⟩
  · rw [step_drain_completion E iobase s hpc hc]; simp [reads_of_append, reads_of_inl]
  · rw [step_drain_aliased E iobase s hpc hc]; simp [reads_of_append, reads_of_inl]
  · rw [step_drain_skipped E iobase s hpc hc]; simp [reads_of_append, reads_of_inl]
  · rw [step_drain_drained E iobase s hpc hc]; simp [reads_of_append, reads_of_inl]

/-- Up to the step at which position `k` of the reply queue is about to be
read, the run on the stream with a value inserted at `k` is the same run. -/
theorem run_insert_agree (E : Env) (iobase k v : Nat) (s0 : State) (M : Nat)
    (hk : (reads_of (u32 (iobase + MPT_REG_REP_Q)) (run E iobase M s0).log).length = k)
    (i : Nat) (hi : i ≤ M) :
    run (insert_reply E iobase k v) iobase i s0 = run E iobase i s0 := by
  induction i with
  | zero => rfl
  | succ i ih =>
    rw [run_succ_last, run_succ_last, ih (by omega)]
    apply step_insert_agree
    intro hpc
    have h1 := step_drain_reads E iobase (run E iobase i s0) hpc
    have h2 := run_reads_mono E iobase (u32 (iobase + MPT_REG_REP_Q)) (M - (i + 1))
      (step E iobase (run E iobase i s0))
    have h3 : run E iobase (M - (i + 1)) (step E iobase (run E iobase i s0))
        = run E iobase M s0 := by
      rw [← run_succ_last, ← run_add]
      congr 1; omega
    rw [h3, hk] at h2
    omega

theorem one_more_reply_step (E : Env) (iobase k v : Nat) (s s' : State)
    (h : one_more_reply iobase k s s') :
    one_more_reply iobase k (step E iobase s) (step (insert_reply E iobase k v) iobase s') := by
  obtain ⟨hpc', hr, hq, hsl, hw, hi, hn, hk⟩ := h
  have hm : (insert_reply E iobase k v).reply_msg = E.reply_msg := rfl
  cases hpc : s.pc with
  | try_again =>
    rw [hpc] at hpc'
    rw [step_try_again _ _ _ hpc, step_try_again _ _ _ hpc']
    refine ⟨rfl, hr, hq, hsl, ?_, ?_, ?_, ?_⟩
    · intro p; simp only [writes_to_append, hw p]; rfl
    · simp only [reads_of_append, hi, reads_of_outl]
    · simp only [reads_of_append, reads_of_outl, List.append_nil]; exact hn
    · simp only [reads_of_append, reads_of_outl, List.append_nil]; exact hk
  | sleep =>
    rw [hpc] at hpc'
    rw [step_sleep _ _ _ hpc, step_sleep _ _ _ hpc']
    exact ⟨rfl, hr, hq, by simp [hsl], hw, hi, hn, hk⟩
  | ret c =>
    rw [hpc] at hpc'
    rw [step_ret _ _ _ c hpc, step_ret _ _ _ c hpc']
    exact ⟨by rw [hpc, hpc'], hr, hq, hsl, hw, hi, hn, hk⟩
  | poll =>
    rw [hpc] at hpc'
    have hv : next_istatus (insert_reply E iobase k v) iobase s' = next_istatus E iobase s := by
      rw [next_istatus_eq, next_istatus_eq, istatus_at_insert, hi]
    rw [step_poll _ _ _ hpc, step_poll _ _ _ hpc', hv]
    refine ⟨rfl, hr, hq, hsl, ?_, ?_, ?_, ?_⟩
    · intro p; simp only [writes_to_append, hw p]
    · simp only [reads_of_append, hi]
    · simp only [reads_of_append, reads_of_inl, port_istatus_ne_rep_q, if_false,
        List.append_nil]; exact hn
    · simp only [reads_of_append, reads_of_inl, port_istatus_ne_rep_q, if_false,
        List.append_nil]; exact hk
  | drain =>
    rw [hpc] at hpc'
    have hv : next_reply (insert_reply E iobase k v) iobase s' = next_reply E iobase s := by
      rw [next_reply_eq, next_reply_eq, reply_at_insert, hn]
      have h1 : ¬ ((reads_of (u32 (iobase + MPT_REG_REP_Q)) s.log).length + 1 < k) := by omega
      have h2 : ¬ ((reads_of (u32 (iobase + MPT_REG_REP_Q)) s.log).length + 1 = k) := by omega
      simp [h1, h2]
    have hrest : ∀ (pc : Pc) (r r' : Nat), r' = r →
        one_more_reply iobase k
          { s with pc := pc, retry := r
                   log := s.log ++ [Access.inl (u32 (iobase + MPT_REG_REP_Q))
                     (next_reply E iobase s)] }
          { s' with pc := pc, retry := r'
                    log := s'.log ++ [Access.inl (u32 (iobase + MPT_REG_REP_Q))
                      (next_reply E iobase s)] } := by
      intro pc r r' hrr
      refine ⟨rfl, hrr, hq, hsl, ?_, ?_, ?_, ?_⟩
      · intro p; simp only [writes_to_append, hw p]
      · simp only [reads_of_append, hi]
      · simp only [reads_of_append, reads_of_inl, if_true, List.length_append,
          List.length_singleton, hn]
      · simp only [reads_of_append, reads_of_inl, if_true, List.length_append,
          List.length_singleton]; omega
    rcases reply_class_cases E.reply_msg (next_reply E iobase s) with
      ⟨hc, _⟩ | ⟨hc, _⟩ | ⟨hc, _⟩ | ⟨hc, _⟩
    · rw [step_drain_completion E iobase s hpc hc,
        step_drain_completion _ iobase s' hpc' (by rw [hm, hv]; exact hc), hv]
      exact hrest _ _ _ hr
    · rw [step_drain_aliased E iobase s hpc hc,
        step_drain_aliased _ iobase s' hpc' (by rw [hm, hv]; exact hc), hv, hr]
      exact hrest _ _ _ rfl
    · rw [step_drain_skipped E iobase s hpc hc,
        step_drain_skipped _ iobase s' hpc' (by rw [hm, hv]; exact hc), hv]
      exact hrest _ _ _ hr
    · rw [step_drain_drained E iobase s hpc hc,
        step_drain_drained _ iobase s' hpc' (by rw [hm, hv]; exact hc), hv]
      exact hrest _ _ _ hr

theorem one_more_reply_run (E : Env) (iobase k v : Nat) (n : Nat) (s s' : State)
    (h : one_more_reply iobase k s s') :
    one_more_reply iobase k (run E iobase n s) (run (insert_reply E iobase k v) iobase n s') := by
  induction n generalizing s s' with
  | zero => exact h
  | succ n ih => exact ih _ _ (one_more_reply_step E iobase k v s s' h)

theorem reply_class_skipped (reply_msg v : Nat) (h1 : v ≠ MPT_CONTEXT_MAGIC)
    (h2 : v ≠ 0xffffffff) (h3 : ¬ (shl1 v = u32 reply_msg ∨ shl1 v = 0)) :
    reply_class reply_msg v = ReplyClass.skipped := by
  unfold reply_class
  simp only [h1, h3, if_false]
  simp [h2]

/-- The step that reads the inserted value leaves a state that is the old one
after one more read of the reply queue. -/
theorem one_more_reply_start (E : Env) (iobase k v : Nat) (s : State) (hpc : s.pc = Pc.drain)
    (hk : (reads_of (u32 (iobase + MPT_REG_REP_Q)) s.log).length = k)
    (hv32 : v < 2 ^ 32) (h1 : v ≠ MPT_CONTEXT_MAGIC) (h2 : v ≠ 0xffffffff)
    (h3 : ¬ (shl1 v = u32 E.reply_msg ∨ shl1 v = 0)) :
    one_more_reply iobase k s (step (insert_reply E iobase k v) iobase s) ∧
    reads_of (u32 (iobase + MPT_REG_REP_Q)) (step (insert_reply E iobase k v) iobase s).log
      = reads_of (u32 (iobase + MPT_REG_REP_Q)) s.log ++ [v] := by
  have hm : (insert_reply E iobase k v).reply_msg = E.reply_msg := rfl
  have hv : next_reply (insert_reply E iobase k v) iobase s = v := by
    have hv' : v < 4294967296 := hv32
    rw [next_reply_eq, reply_at_insert, hk]
    simp [u32, Nat.mod_eq_of_lt hv']
  have hc : reply_class (insert_reply E iobase k v).reply_msg
      (next_reply (insert_reply E iobase k v) iobase s) = ReplyClass.skipped := by
    rw [hm, hv]; exact reply_class_skipped _ _ h1 h2 h3
  rw [step_drain_skipped _ iobase s hpc hc, hv]
  refine ⟨⟨hpc.symm, rfl, rfl, rfl, ?_, ?_, ?_, ?_⟩, ?_⟩
  · intro p; simp [writes_to_append, writes_to_inl]
  · simp [reads_of_append, reads_of_inl, port_rep_q_ne_istatus]
  · simp [reads_of_append, reads_of_inl]
  · omega
  · simp [reads_of_append, reads_of_inl]

theorem entry_insert (E : Env) (iobase k v : Nat) (cdb_is_read : (Nat → Nat) → Nat → Bool)
    (op : disk_op_s) (cdbcmd : Nat → Nat) (target lun blocksize : Nat) :
    mpt_scsi_cmd_entry (insert_reply E iobase k v) cdb_is_read op cdbcmd target lun blocksize
      = mpt_scsi_cmd_entry E cdb_is_read op cdbcmd target lun blocksize := rfl

/-- C18: let `v` be a 32-bit value that is neither 0xaaaa5555, nor 0xffffffff,
nor aliased, inserted at position `k` of the reply-queue stream, where `k` is
the position that the command is about to read after `M` steps.  Up to step
`M` the two runs are the same; the run on the new stream then reads `v`, and
from there on it is one step behind: after `M + 1 + j` steps it has the
result, the control point, the retry flag, the request-queue writes and the
interrupt-status reads that the old run has after `M + j` steps. -/
theorem skipped_reply_no_effect (E : Env) (cdb_is_read : (Nat → Nat) → Nat → Bool)
    (llun : mpt_lun_s) (op : disk_op_s) (cdbcmd : Nat → Nat) (target blocksize : Nat)
    (k v M : Nat) (hv32 : v < 2 ^ 32) (h1 : v ≠ MPT_CONTEXT_MAGIC) (h2 : v ≠ 0xffffffff)
    (h3 : ¬ (shl1 v = u32 E.reply_msg ∨ shl1 v = 0))
    (hpc : (mpt_scsi_cmd E cdb_is_read M llun op cdbcmd target 0 blocksize).pc = Pc.drain)
    (hk : (reads_of (u32 (llun.iobase + MPT_REG_REP_Q))
      (mpt_scsi_cmd E cdb_is_read M llun op cdbcmd target 0 blocksize).log).length = k) :
    (∀ i, i ≤ M →
      mpt_scsi_cmd (insert_reply E llun.iobase k v) cdb_is_read i llun op cdbcmd target 0 blocksize
        = mpt_scsi_cmd E cdb_is_read i llun op cdbcmd target 0 blocksize) ∧
    reads_of (u32 (llun.iobase + MPT_REG_REP_Q))
        (mpt_scsi_cmd (insert_reply E llun.iobase k v) cdb_is_read (M + 1) llun op cdbcmd target 0
          blocksize).log
      = reads_of (u32 (llun.iobase + MPT_REG_REP_Q))
          (mpt_scsi_cmd E cdb_is_read M llun op cdbcmd target 0 blocksize).log ++ [v] ∧
    (∀ j,
      (mpt_scsi_cmd (insert_reply E llun.iobase k v) cdb_is_read (M + 1 + j) llun op cdbcmd target 0
          blocksize).result
        = (mpt_scsi_cmd E cdb_is_read (M + j) llun op cdbcmd target 0 blocksize).result ∧
      (mpt_scsi_cmd (insert_reply E llun.iobase k v) cdb_is_read (M + 1 + j) llun op cdbcmd target 0
          blocksize).pc
        = (mpt_scsi_cmd E cdb_is_read (M + j) llun op cdbcmd target 0 blocksize).pc ∧
      (mpt_scsi_cmd (insert_reply E llun.iobase k v) cdb_is_read (M + 1 + j) llun op cdbcmd target 0
          blocksize).retry
        = (mpt_scsi_cmd E cdb_is_read (M + j) llun op cdbcmd target 0 blocksize).retry ∧
      writes_to (u32 (llun.iobase + MPT_REG_REQ_Q))
          (mpt_scsi_cmd (insert_reply E llun.iobase k v) cdb_is_read (M + 1 + j) llun op cdbcmd
            target 0 blocksize).log
        = writes_to (u32 (llun.iobase + MPT_REG_REQ_Q))
            (mpt_scsi_cmd E cdb_is_read (M + j) llun op cdbcmd target 0 blocksize).log ∧
      reads_of (u32 (llun.iobase + MPT_REG_ISTATUS))
          (mpt_scsi_cmd (insert_reply E llun.iobase k v) cdb_is_read (M + 1 + j) llun op cdbcmd
            target 0 blocksize).log
        = reads_of (u32 (llun.iobase + MPT_REG_ISTATUS))
            (mpt_scsi_cmd E cdb_is_read (M + j) llun op cdbcmd target 0 blocksize).log) := by
  unfold mpt_scsi_cmd at hpc hk ⊢
  simp only [entry_insert]
  have hagree := run_insert_agree E llun.iobase k v
    (mpt_scsi_cmd_entry E cdb_is_read op cdbcmd target 0 blocksize) M hk
  have hM := hagree M (Nat.le_refl M)
  obtain ⟨hstart, hreads⟩ := one_more_reply_start E llun.iobase k v _ hpc hk hv32 h1 h2 h3
  refine ⟨hagree, ?_, ?_⟩
  · rw [run_succ_last, hM]; exact hreads
  · intro j
    have hrun := one_more_reply_run E llun.iobase k v j _ _ hstart
    have he : run (insert_reply E llun.iobase k v) llun.iobase (M + 1 + j)
        (mpt_scsi_cmd_entry E cdb_is_read op cdbcmd target 0 blocksize)
        = run (insert_reply E llun.iobase k v) llun.iobase j
            (step (insert_reply E llun.iobase k v) llun.iobase
              (run E llun.iobase M (mpt_scsi_cmd_entry E cdb_is_read op cdbcmd target 0 blocksize))) := by
      rw [run_add, run_succ_last, hM]
    rw [he, run_add]
    obtain ⟨hp, hr, _, _, hw, hi, _, _⟩ := hrun
    exact ⟨by simp [State.result, hp], hp, hr, hw _, hi⟩

/-- Witness of C18: the value 5 inserted before the context magic, at position
1 of the reply queue, which the command is about to read after 9 steps. -/
theorem skipped_reply_no_effect_witness :
    (mpt_scsi_cmd (insert_reply (env_ex (two_reply_stream 0x7b520 MPT_CONTEXT_MAGIC))
        llun_ex.iobase 1 5) cdb_is_read_ex (9 + 1 + 1) llun_ex op_ex cdb_read10 2 0 512).result
      = (mpt_scsi_cmd (env_ex (two_reply_stream 0x7b520 MPT_CONTEXT_MAGIC)) cdb_is_read_ex
          (9 + 1) llun_ex op_ex cdb_read10 2 0 512).result ∧
    reads_of (u32 (llun_ex.iobase + MPT_REG_REP_Q))
        (mpt_scsi_cmd (insert_reply (env_ex (two_reply_stream 0x7b520 MPT_CONTEXT_MAGIC))
          llun_ex.iobase 1 5) cdb_is_read_ex (9 + 1) llun_ex op_ex cdb_read10 2 0 512).log
      = reads_of (u32 (llun_ex.iobase + MPT_REG_REP_Q))
          (mpt_scsi_cmd (env_ex (two_reply_stream 0x7b520 MPT_CONTEXT_MAGIC)) cdb_is_read_ex 9
            llun_ex op_ex cdb_read10 2 0 512).log ++ [5] :=
  have h := skipped_reply_no_effect (env_ex (two_reply_stream 0x7b520 MPT_CONTEXT_MAGIC))
    cdb_is_read_ex llun_ex op_ex cdb_read10 2 512 1 5 9 (by decide) (by decide) (by decide)
    (by decide) (by decide) (by decide)
  ⟨(h.2.2 1).1, h.2.1⟩

end MptScsi
